import Mathlib

/-!
# go-luxpower-timescaledb: a shallow embedding and its verified properties

The program polls the LuxPower web API for inverter telemetry and stores one
row per run in a TimescaleDB table.  Two Go files are embedded here:

* `internal/config/config.go`  (`Config`, `NewConfig`)
* `cmd/main.go`                (`LiveData`, `LiveDataDisplay.MarshalJSON`,
  `authenticate`, `GetLiveData`, `UpdateInverterData`, `MigrateDb`, `main`)

Library behaviour the program calls into (`net/url`, `net/http`,
`net/http/cookiejar`, `encoding/json`, `pgx`) is either passed in as a
parameter record (`Net`, `Storage`, `Host`) or, where a property depends on
it, written out as a reference model (`Unmarshal`, `Pg`).  Go pointers that
`main` always builds non-nil are embedded as plain values.
-/

namespace Luxpower

/-! ## Errors and URLs -/

/-- A Go `error` value, tagged with the package that produced it. -/
inductive Error where
  /-- An `errors.New(text)` value -/
  | new (text : String)
  /-- the `*url.Error` of a failed `url.Parse` -/
  | url (text : String)
  /-- a transport failure reported by `http.Client.PostForm` -/
  | http (text : String)
  /-- a failure of `io.ReadAll` on a response body -/
  | io (text : String)
  /-- a `*json.SyntaxError` or `*json.UnmarshalTypeError` -/
  | json (text : String)
  /-- an error of the database server reported by `pgx`, with its SQLSTATE -/
  | pg (sqlstate : String)
  /-- the refusal of `pgx` to encode argument `arg` (counted from 0), the
  integer `value`, for the type of its column, before the statement is sent -/
  | encode (arg : Nat) (value : Int)
  deriving DecidableEq, Repr

/-- A parsed `*url.URL`, represented by the text its `String()` method renders. -/
structure URL where
  text : String
  deriving DecidableEq, Repr

deriving instance DecidableEq for Except

/-- The signature of `url.Parse`, a library function taken as a parameter. -/
abbrev UrlParse := String → Except Error URL

/-! ## internal/config/config.go -/

/-- The process environment: `none` for a variable that is not set. -/
abbrev Env := String → Option String

/-- The call `os.LookupEnv`: the value (empty when unset) and whether the
variable is set. -/
def LookupEnv (env : Env) (key : String) : String × Bool :=
  match env key with
  | some v => (v, true)
  | none => ("", false)

/-- The `type Config struct` of config.go. -/
structure Config where
  AccountName : String
  Password : String
  StationNumber : String
  BaseUrl : URL
  DatabaseUrl : String
  deriving DecidableEq, Repr

/-- The function `NewConfig` of config.go, lines 17-56.  Go returns an empty
`Config` together with the error on every failing path; that pair is
`Except.error`. -/
def NewConfig (urlParse : UrlParse) (env : Env) : Except Error Config :=
  let (accountName, found) := LookupEnv env "ACCOUNT_NAME"
  if !found || accountName == "" then
    .error (.new "account name not set")
  else
  let (password, found) := LookupEnv env "ACCOUNT_PASSWORD"
  if !found || password == "" then
    .error (.new "account password not set")
  else
  let (stationNumber, found) := LookupEnv env "STATION_NUMBER"
  if !found || stationNumber == "" then
    .error (.new "station number not set")
  else
  let (baseUrl, found) := LookupEnv env "LUXPOWER_URL"
  if !found || baseUrl == "" then
    .error (.new "base url not set")
  else
  match urlParse baseUrl with
  | .error err => .error err
  | .ok url =>
  let (databaseUrl, found) := LookupEnv env "DATABASE_URL"
  if !found || databaseUrl == "" then
    .error (.new "database url not set")
  else
    .ok { AccountName := accountName, Password := password, StationNumber := stationNumber,
          BaseUrl := url, DatabaseUrl := databaseUrl }

/-- The five required environment variables, in the order `NewConfig` reads them. -/
inductive Var where
  | ACCOUNT_NAME | ACCOUNT_PASSWORD | STATION_NUMBER | LUXPOWER_URL | DATABASE_URL
  deriving DecidableEq, Repr

/-- The name under which a variable is looked up. -/
def Var.key : Var → String
  | .ACCOUNT_NAME => "ACCOUNT_NAME"
  | .ACCOUNT_PASSWORD => "ACCOUNT_PASSWORD"
  | .STATION_NUMBER => "STATION_NUMBER"
  | .LUXPOWER_URL => "LUXPOWER_URL"
  | .DATABASE_URL => "DATABASE_URL"

/-- The `errors.New` value `NewConfig` returns at the check of each variable. -/
def Var.notSet : Var → Error
  | .ACCOUNT_NAME => .new "account name not set"
  | .ACCOUNT_PASSWORD => .new "account password not set"
  | .STATION_NUMBER => .new "station number not set"
  | .LUXPOWER_URL => .new "base url not set"
  | .DATABASE_URL => .new "database url not set"

/-- A variable is missing when it is unset or set to the empty string. -/
def Missing (env : Env) (v : Var) : Prop :=
  env v.key = none ∨ env v.key = some ""

instance (env : Env) (v : Var) : Decidable (Missing env v) := by
  unfold Missing; infer_instance

/-- A `url.Parse` stand-in for concrete runs: it rejects the one text used
below that Go rejects (an invalid percent escape) and passes every other text
through unchanged. -/
def sampleParse : UrlParse := fun s =>
  if s = "http://example.com/%zz" then
    .error (.url "parse \"http://example.com/%zz\": invalid URL escape \"%zz\"")
  else .ok ⟨s⟩

/-- A complete environment. -/
def sampleEnv : Env := fun k =>
  if k = "ACCOUNT_NAME" then some "alice"
  else if k = "ACCOUNT_PASSWORD" then some "secret"
  else if k = "STATION_NUMBER" then some "1234567890"
  else if k = "LUXPOWER_URL" then some "http://example.com"
  else if k = "DATABASE_URL" then some "postgres://db/lux"
  else none

/-- An environment without `DATABASE_URL` whose `LUXPOWER_URL` does not parse. -/
def badUrlEnv : Env := fun k =>
  if k = "ACCOUNT_NAME" then some "alice"
  else if k = "ACCOUNT_PASSWORD" then some "secret"
  else if k = "STATION_NUMBER" then some "1234567890"
  else if k = "LUXPOWER_URL" then some "http://example.com/%zz"
  else none

/-- The complete environment with `DATABASE_URL` removed. -/
def noDatabaseEnv : Env := fun k =>
  if k = "DATABASE_URL" then none else sampleEnv k

/-! ## cmd/main.go: the telemetry record -/

/-- The `type LiveData struct` of main.go, lines 22-33.  Go's `int` is embedded
as `Int`; the 64-bit range is enforced where values enter (`storeInt`) and
where arithmetic is done (`goAdd`). -/
structure LiveData where
  PhotoVoltaic1Watts : Int
  PhotoVoltaic2Watts : Int
  PhotoVoltaic3Watts : Int
  PhotoVoltaicTotalWatts : Int
  InverterToBattery : Int
  BatteryToInverter : Int
  BatteryChargePercent : Int
  InverterToLoad : Int
  GridToLoad : Int
  InverterToGrid : Int
  deriving DecidableEq, Repr

/-- The zero value `LiveData{}`. -/
def LiveData.zero : LiveData := ⟨0, 0, 0, 0, 0, 0, 0, 0, 0, 0⟩

/-- The fields of `LiveData`, in declaration order (what `reflect` enumerates). -/
inductive Field where
  | PhotoVoltaic1Watts | PhotoVoltaic2Watts | PhotoVoltaic3Watts | PhotoVoltaicTotalWatts
  | InverterToBattery | BatteryToInverter | BatteryChargePercent
  | InverterToLoad | GridToLoad | InverterToGrid
  deriving DecidableEq, Repr

/-- All ten fields in declaration order. -/
def Field.all : List Field :=
  [.PhotoVoltaic1Watts, .PhotoVoltaic2Watts, .PhotoVoltaic3Watts, .PhotoVoltaicTotalWatts,
   .InverterToBattery, .BatteryToInverter, .BatteryChargePercent,
   .InverterToLoad, .GridToLoad, .InverterToGrid]

/-- The Go name of a field. -/
def Field.name : Field → String
  | .PhotoVoltaic1Watts => "PhotoVoltaic1Watts"
  | .PhotoVoltaic2Watts => "PhotoVoltaic2Watts"
  | .PhotoVoltaic3Watts => "PhotoVoltaic3Watts"
  | .PhotoVoltaicTotalWatts => "PhotoVoltaicTotalWatts"
  | .InverterToBattery => "InverterToBattery"
  | .BatteryToInverter => "BatteryToInverter"
  | .BatteryChargePercent => "BatteryChargePercent"
  | .InverterToLoad => "InverterToLoad"
  | .GridToLoad => "GridToLoad"
  | .InverterToGrid => "InverterToGrid"

/-- The `json:"..."` tag of a field: the key of the API response. -/
def Field.tag : Field → String
  | .PhotoVoltaic1Watts => "ppv1"
  | .PhotoVoltaic2Watts => "ppv2"
  | .PhotoVoltaic3Watts => "ppv3"
  | .PhotoVoltaicTotalWatts => "ppv"
  | .InverterToBattery => "pCharge"
  | .BatteryToInverter => "pDisCharge"
  | .BatteryChargePercent => "soc"
  | .InverterToLoad => "pinv"
  | .GridToLoad => "pToUser"
  | .InverterToGrid => "pToGrid"

/-- Reading a field. -/
def Field.get : Field → LiveData → Int
  | .PhotoVoltaic1Watts, d => d.PhotoVoltaic1Watts
  | .PhotoVoltaic2Watts, d => d.PhotoVoltaic2Watts
  | .PhotoVoltaic3Watts, d => d.PhotoVoltaic3Watts
  | .PhotoVoltaicTotalWatts, d => d.PhotoVoltaicTotalWatts
  | .InverterToBattery, d => d.InverterToBattery
  | .BatteryToInverter, d => d.BatteryToInverter
  | .BatteryChargePercent, d => d.BatteryChargePercent
  | .InverterToLoad, d => d.InverterToLoad
  | .GridToLoad, d => d.GridToLoad
  | .InverterToGrid, d => d.InverterToGrid

/-- Writing a field. -/
def Field.set : Field → LiveData → Int → LiveData
  | .PhotoVoltaic1Watts, d, x => { d with PhotoVoltaic1Watts := x }
  | .PhotoVoltaic2Watts, d, x => { d with PhotoVoltaic2Watts := x }
  | .PhotoVoltaic3Watts, d, x => { d with PhotoVoltaic3Watts := x }
  | .PhotoVoltaicTotalWatts, d, x => { d with PhotoVoltaicTotalWatts := x }
  | .InverterToBattery, d, x => { d with InverterToBattery := x }
  | .BatteryToInverter, d, x => { d with BatteryToInverter := x }
  | .BatteryChargePercent, d, x => { d with BatteryChargePercent := x }
  | .InverterToLoad, d, x => { d with InverterToLoad := x }
  | .GridToLoad, d, x => { d with GridToLoad := x }
  | .InverterToGrid, d, x => { d with InverterToGrid := x }

/-- The smallest Go `int` (64-bit). -/
def minInt : Int := -9223372036854775808

/-- The largest Go `int` (64-bit). -/
def maxInt : Int := 9223372036854775807

/-- Whether an integer is a Go `int`. -/
def InRange (n : Int) : Prop := minInt ≤ n ∧ n ≤ maxInt

instance (n : Int) : Decidable (InRange n) := by unfold InRange; infer_instance

/-- Go's `+` on `int`: two's-complement wrap-around at 64 bits. -/
def goAdd (a b : Int) : Int := (a + b + 2 ^ 63) % 2 ^ 64 - 2 ^ 63

/-! ## encoding/json: `json.Unmarshal(body, &data)` for `data : LiveData`

A reference model of the library call of main.go line 103.  The body is
represented by its parse: either the bytes are not one well-formed JSON text,
or they denote a JSON value.  An object keeps its members in document order,
duplicates included. -/

/-- A JSON value.  A number is `int` when its literal is an optional minus
sign followed by digits, and `real` (kept as text) when it has a fraction or
an exponent. -/
inductive JSON where
  | null
  | bool (b : Bool)
  | int (n : Int)
  | real (literal : String)
  | str (s : String)
  | arr (items : List JSON)
  | obj (members : List (String × JSON))

/-- A response body as `json.Unmarshal` sees it. -/
inductive Body where
  /-- bytes that are not a well-formed JSON text, with the decoder's message -/
  | malformed (message : String)
  /-- a well-formed JSON text -/
  | value (v : JSON)

/-- The decoder's case folding of one character of a key.  ASCII letters fold
to upper case; U+017F and U+212A are the two other characters whose Unicode
simple fold is an ASCII letter.  Every other character is left as it is,
which decides a match against the ASCII tags of `LiveData` as Go does. -/
def foldRune (c : Char) : Char :=
  if 'a' ≤ c ∧ c ≤ 'z' then Char.ofNat (c.toNat - 32)
  else if c = '\u017F' then 'S'
  else if c = '\u212A' then 'K'
  else c

/-- The folded form of a key. -/
def foldName (key : String) : String := String.mk (key.toList.map foldRune)

/-- The field an object key is stored into: the field whose tag is the key,
or else the first field whose tag equals the key after folding. -/
def findField (key : String) : Option Field :=
  match Field.all.find? (fun f => f.tag == key) with
  | some f => some f
  | none => Field.all.find? (fun f => foldName f.tag == foldName key)

/-- How the decoder names the kind of a value in an `UnmarshalTypeError`. -/
def JSON.kind : JSON → String
  | .null => "null"
  | .bool _ => "bool"
  | .int _ => "number"
  | .real _ => "number"
  | .str _ => "string"
  | .arr _ => "array"
  | .obj _ => "object"

/-- How the decoder names a value that does not fit an `int` field: its kind,
followed by the literal when it is a number. -/
def JSON.describe : JSON → String
  | .int n => "number " ++ toString n
  | .real literal => "number " ++ literal
  | v => v.kind

/-- The `*json.UnmarshalTypeError` for a value that does not fit field `f`. -/
def typeError (f : Field) (v : JSON) : Error :=
  .json ("json: cannot unmarshal " ++ v.describe ++ " into Go struct field LiveData."
    ++ f.tag ++ " of type int")

/-- Storing a JSON value into the `int` field `f` whose current content is
`cur`: `null` leaves the field alone, an integer literal inside the 64-bit
range is stored, anything else leaves the field alone and reports a type
error. -/
def storeInt (f : Field) (cur : Int) (v : JSON) : Int × Option Error :=
  match v with
  | .null => (cur, none)
  | .int n => if InRange n then (n, none) else (cur, some (typeError f v))
  | _ => (cur, some (typeError f v))

/-- One member of the object: a key with no field is skipped; otherwise the
value is stored into the field, and the first error seen is the one kept
while decoding goes on. -/
def decodeMember (st : LiveData × Option Error) (m : String × JSON) :
    LiveData × Option Error :=
  match findField m.1 with
  | none => st
  | some f =>
    let (x, err) := storeInt f (f.get st.1) m.2
    (f.set st.1 x, if st.2.isSome then st.2 else err)

/-- The call `json.Unmarshal(body, &data)`: the content of `data` afterwards
and the returned error.  A malformed body is rejected before anything is
stored; a top-level `null` is accepted and stores nothing; a top-level value
that is neither is a type error. -/
def Unmarshal (body : Body) (data : LiveData) : LiveData × Option Error :=
  match body with
  | .malformed message => (data, some (.json message))
  | .value (.obj members) => members.foldl decodeMember (data, none)
  | .value .null => (data, none)
  | .value v =>
    (data, some (.json ("json: cannot unmarshal " ++ v.kind
      ++ " into Go value of type main.LiveData")))

/-! ## cmd/main.go: the session client and the fetch -/

/-- The type `url.Values`: the form fields of a POST, keys in the order
`Encode` sends them. -/
abbrev Values := List (String × List String)

/-- One call of `Client.PostForm`. -/
structure Request where
  url : String
  form : Values
  deriving DecidableEq, Repr

/-- An HTTP response as the program uses it: what `io.ReadAll(r.Body)` yields. -/
structure Response where
  body : Except Error Body

/-- The network-side library behaviour, over a cookie jar type `J`:
`url.Parse`, `Jar.Cookies`, and one exchange of the client built in `main`
(lines 148-153), whose `CheckRedirect` stops at the first response and whose
jar receives the cookies the response sets. -/
structure Net (J : Type) where
  urlParse : UrlParse
  cookies : J → URL → List String
  postForm : J → Request → Except Error Response × J

/-- The `http.Client`: the calls of `PostForm` made through it so far, oldest first. -/
structure Client where
  sent : List Request
  deriving DecidableEq, Repr

/-- A SQL parameter value. -/
inductive Value where
  | time (t : Int)
  | text (s : String)
  | int (n : Int)
  deriving DecidableEq, Repr

/-- A statement handed to the connection: its text and positional arguments. -/
structure Stmt where
  sql : String
  args : List Value
  deriving DecidableEq, Repr

/-- The storage-side library behaviour, over a database state type `D`:
`Conn.Exec` and `Conn.QueryRow(...).Scan` of one integer.  A failed statement
leaves the database as it was. -/
structure Storage (D : Type) where
  exec : D → Stmt → Except Error D
  queryInt : D → Stmt → Except Error Int

/-- The `*pgx.Conn`: the database behind it and the statements sent so far. -/
structure Conn (D : Type) where
  db : D
  issued : List Stmt

/-- The `type LuxpowerDownload struct` of main.go, lines 50-55. -/
structure LuxpowerDownload (J D : Type) where
  Config : Config
  Jar : J
  Client : Client
  Connection : Conn D

/-- The call `ld.Client.PostForm(url, v)`: one exchange; the request is
recorded and the jar updated. -/
def LuxpowerDownload.PostForm {J D : Type} (net : Net J) (ld : LuxpowerDownload J D)
    (url : String) (v : Values) : Except Error Response × LuxpowerDownload J D :=
  let (r, jar) := net.postForm ld.Jar ⟨url, v⟩
  (r, { ld with Jar := jar, Client := ⟨ld.Client.sent ++ [⟨url, v⟩]⟩ })

/-- The method `authenticate` of main.go, lines 57-72. -/
def LuxpowerDownload.authenticate {J D : Type} (net : Net J) (ld : LuxpowerDownload J D) :
    Option Error × LuxpowerDownload J D :=
  let v : Values := [("account", [ld.Config.AccountName]), ("password", [ld.Config.Password])]
  match net.urlParse (ld.Config.BaseUrl.text ++ "/web/login") with
  | .error err => (some err, ld)
  | .ok postUrl =>
    match ld.PostForm net postUrl.text v with
    | (.error err, ld1) => (some err, ld1)
    | (.ok _, ld1) => (none, ld1)

/-- The method `GetLiveData` of main.go, lines 74-107: the returned snapshot
and error, and the downloader afterwards. -/
def LuxpowerDownload.GetLiveData {J D : Type} (net : Net J) (ld : LuxpowerDownload J D)
    (test_mode : Bool) : (LiveData × Option Error) × LuxpowerDownload J D :=
  if test_mode then
    ((LiveData.zero, none), ld)
  else
    let login :=
      if (net.cookies ld.Jar ld.Config.BaseUrl).length = 0 then ld.authenticate net
      else (none, ld)
    match login with
    | (some err, ld1) => ((LiveData.zero, some err), ld1)
    | (none, ld1) =>
      match net.urlParse (ld1.Config.BaseUrl.text ++ "/api/inverter/getInverterRuntime") with
      | .error err => ((LiveData.zero, some err), ld1)
      | .ok liveUrl =>
        let v : Values := [("serialNum", [ld1.Config.StationNumber])]
        match ld1.PostForm net liveUrl.text v with
        | (.error err, ld2) => ((LiveData.zero, some err), ld2)
        | (.ok r, ld2) =>
          match r.body with
          | .error err => ((LiveData.zero, some err), ld2)
          | .ok body =>
            match Unmarshal body LiveData.zero with
            | (_, some err) => ((LiveData.zero, some err), ld2)
            | (data, none) => ((data, none), ld2)

/-- The fetch of `GetLiveData(false)` reaches the decoder: the login step
(lines 78-83) does not fail, the runtime-data URL parses, the POST succeeds,
and reading the response yields `body`; `ld2` is the downloader afterwards. -/
def Fetches {J D : Type} (net : Net J) (ld : LuxpowerDownload J D) (body : Body)
    (ld2 : LuxpowerDownload J D) : Prop :=
  ∃ ld1 liveUrl r,
    (if (net.cookies ld.Jar ld.Config.BaseUrl).length = 0 then ld.authenticate net
      else (none, ld)) = (none, ld1) ∧
    net.urlParse (ld1.Config.BaseUrl.text ++ "/api/inverter/getInverterRuntime")
      = .ok liveUrl ∧
    ld1.PostForm net liveUrl.text [("serialNum", [ld1.Config.StationNumber])] = (.ok r, ld2) ∧
    r.body = .ok body

/-- The snapshot whose fields hold the given values. -/
def LiveData.ofValues (vals : Field → Int) : LiveData :=
  { PhotoVoltaic1Watts := vals .PhotoVoltaic1Watts
    PhotoVoltaic2Watts := vals .PhotoVoltaic2Watts
    PhotoVoltaic3Watts := vals .PhotoVoltaic3Watts
    PhotoVoltaicTotalWatts := vals .PhotoVoltaicTotalWatts
    InverterToBattery := vals .InverterToBattery
    BatteryToInverter := vals .BatteryToInverter
    BatteryChargePercent := vals .BatteryChargePercent
    InverterToLoad := vals .InverterToLoad
    GridToLoad := vals .GridToLoad
    InverterToGrid := vals .InverterToGrid }

/-! ## cmd/main.go: storage -/

/-- The statement text of main.go line 167. -/
def sqlCreateExtension : String := "CREATE EXTENSION IF NOT EXISTS timescaledb;"

/-- The statement text of main.go lines 172-186. -/
def sqlCreateTable : String :=
  "CREATE TABLE IF NOT EXISTS public.inverter_data (\n" ++
  "\t\t\"time\" timestamp with time zone NOT NULL,\n" ++
  "\t\tstation_number text NOT NULL,\n" ++
  "\t\tbattery_charge_percent integer NOT NULL,\n" ++
  "\t\tpv_1 integer NOT NULL,\n" ++
  "\t\tpv_2 integer NOT NULL,\n" ++
  "\t\tpv_3 integer NOT NULL,\n" ++
  "\t\tpv_total integer NOT NULL,\n" ++
  "\t\tbattery_charge integer NOT NULL,\n" ++
  "\t\tbattery_discharge integer NOT NULL,\n" ++
  "\t\tinverter_to_load integer NOT NULL,\n" ++
  "\t\tinverter_to_grid integer NOT NULL,\n" ++
  "\t\tgrid_to_load integer NOT NULL,\n" ++
  "\t\tload integer NOT NULL\n" ++
  "\t\t);"

/-- The query text of main.go line 190. -/
def sqlCountHypertables : String :=
  "SELECT COUNT(*) FROM timescaledb_information.hypertables WHERE hypertable_name = 'inverter_data';"

/-- The statement text of main.go line 197. -/
def sqlCreateHypertable : String :=
  "SELECT create_hypertable('inverter_data', by_range('time'));"

/-- The statement text of main.go line 203. -/
def sqlCreateUniqueIndex : String :=
  "CREATE UNIQUE INDEX IF NOT EXISTS ix_inverter_time_station ON inverter_data (time, station_number);"

/-- The column list of the INSERT of main.go line 116, in order. -/
def insertColumns : List String :=
  ["time", "station_number", "battery_charge_percent", "pv_1", "pv_2", "pv_3", "pv_total",
   "battery_charge", "battery_discharge", "inverter_to_load", "inverter_to_grid",
   "grid_to_load", "load"]

/-- The statement text of main.go lines 116-117. -/
def sqlInsert : String :=
  "INSERT INTO inverter_data (time, station_number, battery_charge_percent, pv_1, pv_2, " ++
  "pv_3, pv_total, battery_charge, battery_discharge, inverter_to_load, inverter_to_grid, " ++
  "grid_to_load, load)\n" ++
  "\t\tVALUES ($1, $2, $3, $4, $5, $6, $7, $8, $9, $10, $11, $12, $13)"

/-- The arguments of the INSERT, main.go lines 118-119, with `now` the value
of `time.Now()`. -/
def insertArgs (cfg : Config) (now : Int) (data : LiveData) : List Value :=
  [.time now, .text cfg.StationNumber, .int data.BatteryChargePercent,
   .int data.PhotoVoltaic1Watts, .int data.PhotoVoltaic2Watts, .int data.PhotoVoltaic3Watts,
   .int data.PhotoVoltaicTotalWatts, .int data.InverterToBattery, .int data.BatteryToInverter,
   .int data.InverterToLoad, .int data.InverterToGrid, .int data.GridToLoad,
   .int (goAdd data.InverterToLoad data.GridToLoad)]

/-- The INSERT that `UpdateInverterData` sends. -/
def insertStmt (cfg : Config) (now : Int) (data : LiveData) : Stmt :=
  ⟨sqlInsert, insertArgs cfg now data⟩

/-- A row of `inverter_data`: each column of the INSERT's column list with the
argument bound to its placeholder (`$i` is the i-th argument). -/
abbrev Row := List (String × Value)

/-- The row an INSERT statement of the program describes. -/
def Stmt.row (s : Stmt) : Row := insertColumns.zip s.args

/-- The call `conn.Exec(ctx, sql, args...)`: the statement is recorded; the
returned error is nil exactly when the storage accepted it. -/
def Conn.Exec {D : Type} (store : Storage D) (conn : Conn D) (s : Stmt) :
    Option Error × Conn D :=
  match store.exec conn.db s with
  | .ok db => (none, ⟨db, conn.issued ++ [s]⟩)
  | .error err => (some err, ⟨conn.db, conn.issued ++ [s]⟩)

/-- The call `conn.QueryRow(ctx, sql).Scan(&rowCount)`: the query is recorded. -/
def Conn.QueryRowScan {D : Type} (store : Storage D) (conn : Conn D) (s : Stmt) :
    Except Error Int × Conn D :=
  (store.queryInt conn.db s, ⟨conn.db, conn.issued ++ [s]⟩)

/-- The function `MigrateDb` of main.go, lines 165-213. -/
def MigrateDb {D : Type} (store : Storage D) (conn : Conn D) : Option Error × Conn D :=
  match conn.Exec store ⟨sqlCreateExtension, []⟩ with
  | (some err, c1) => (some err, c1)
  | (none, c1) =>
    match c1.Exec store ⟨sqlCreateTable, []⟩ with
    | (some err, c2) => (some err, c2)
    | (none, c2) =>
      match c2.QueryRowScan store ⟨sqlCountHypertables, []⟩ with
      | (.error err, c3) => (some err, c3)
      | (.ok rowCount, c3) =>
        let converted :=
          if rowCount = 0 then c3.Exec store ⟨sqlCreateHypertable, []⟩ else (none, c3)
        match converted with
        | (some err, c4) => (some err, c4)
        | (none, c4) =>
          match c4.Exec store ⟨sqlCreateUniqueIndex, []⟩ with
          | (some err, c5) => (some err, c5)
          | (none, c5) => (none, c5)

/-- A line written by the standard logger. -/
inductive LogLine where
  /-- the text given to `log.Println` -/
  | text (s : String)
  /-- the rendering `err.Error()` of the error given to `log.Fatal` -/
  | error (err : Error)
  deriving DecidableEq, Repr

/-- How a function that may call `log.Fatal` ends: it returns, or the process
is terminated by `log.Fatal(err)`, which prints `err` and exits with status 1. -/
inductive Outcome (α σ : Type) where
  | returned (a : α) (s : σ)
  | fatal (err : Error) (s : σ)

/-- The method `UpdateInverterData` of main.go, lines 109-124, on the downloader and the
lines logged so far; `now` is the value of `time.Now()` at line 118. -/
def LuxpowerDownload.UpdateInverterData {J D : Type} (net : Net J) (store : Storage D)
    (now : Int) (ld : LuxpowerDownload J D) (log : List LogLine) :
    Outcome (Option Error) (LuxpowerDownload J D × List LogLine) :=
  let log1 := log ++ [.text "Fetching data from LuxPower"]
  match ld.GetLiveData net false with
  | ((_, some err), ld1) => .returned (some err) (ld1, log1)
  | ((data, none), ld1) =>
    match ld1.Connection.Exec store (insertStmt ld1.Config now data) with
    | (some err, conn) => .fatal err ({ ld1 with Connection := conn }, log1 ++ [.error err])
    | (none, conn) => .returned none ({ ld1 with Connection := conn }, log1)

/-- What the process is given by its surroundings: the environment, the
network and storage libraries, `pgx.Connect`, `Conn.Ping`, `cookiejar.New`
and the clock. -/
structure Host (J D : Type) where
  env : Env
  net : Net J
  store : Storage D
  connect : String → Except Error D
  ping : D → Option Error
  newJar : Except Error J
  now : Int

/-- The exit status of the process. -/
inductive Exit where
  /-- The function `main` returned: status 0 -/
  | ok
  /-- A call of `log.Fatal`: status 1 -/
  | fatal
  deriving DecidableEq, Repr

/-- What one run of the process did. -/
structure Run where
  exit : Exit
  log : List LogLine
  issued : List Stmt
  sent : List Request
  deriving DecidableEq, Repr

/-- The function `main` of main.go, lines 126-163. -/
def main {J D : Type} (h : Host J D) : Run :=
  match NewConfig h.net.urlParse h.env with
  | .error err => ⟨.fatal, [.error err], [], []⟩
  | .ok cfg =>
    match h.connect cfg.DatabaseUrl with
    | .error err => ⟨.fatal, [.error err], [], []⟩
    | .ok db =>
      match h.ping db with
      | some err => ⟨.fatal, [.error err], [], []⟩
      | none =>
        let (_, conn) := MigrateDb h.store ⟨db, []⟩
        match h.newJar with
        | .error err => ⟨.fatal, [.error err], conn.issued, []⟩
        | .ok jar =>
          let d : LuxpowerDownload J D :=
            { Config := cfg, Jar := jar, Client := ⟨[]⟩, Connection := conn }
          match d.UpdateInverterData h.net h.store h.now [] with
          | .returned _ (d1, log) => ⟨.ok, log, d1.Connection.issued, d1.Client.sent⟩
          | .fatal _ (d1, log) => ⟨.fatal, log, d1.Connection.issued, d1.Client.sent⟩

/-! ## PostgreSQL with TimescaleDB: a reference model of the six statements

The database is described by what the program's statements create and read:
the extension, the table `inverter_data` with its rows, whether the table is a
hypertable, and the unique index `ix_inverter_time_station`. -/

/-- The state of the database. -/
structure PgDb where
  /-- the server offers the timescaledb extension for installation -/
  available : Bool
  /-- the extension is installed -/
  extension : Bool
  /-- the rows of `inverter_data`, oldest first; `none` when there is no table -/
  table : Option (List Row)
  /-- the table is a hypertable partitioned on `time` -/
  hypertable : Bool
  /-- the unique index on `(time, station_number)` exists -/
  uniqueIndex : Bool
  deriving DecidableEq, Repr

/-- The key of a row under the unique index: its `time` and `station_number`. -/
def Row.key (r : Row) : Option Value × Option Value :=
  (r.lookup "time", r.lookup "station_number")

/-- Whether an integer fits 32 bits. -/
def fits32 (n : Int) : Bool := decide (-2147483648 ≤ n ∧ n ≤ 2147483647)

/-- Whether a value fits a column declared `integer` (32 bits). -/
def fitsInteger : Value → Bool
  | .int n => fits32 n
  | _ => false

/-- The first integer argument, counting from position `i`, that does not fit
32 bits, with its position. -/
def misfit : List Value → Nat → Option (Nat × Int)
  | [], _ => none
  | .int n :: rest, i => if fits32 n then misfit rest (i + 1) else some (i, n)
  | _ :: rest, i => misfit rest (i + 1)

/-- Whether the values a write of the snapshot sends to `integer` columns all
fit them: the ten fields and the sum of `InverterToLoad` and `GridToLoad`. -/
def fitsColumns (data : LiveData) : Bool :=
  Field.all.all (fun f => fits32 (f.get data)) &&
    fits32 (data.InverterToLoad + data.GridToLoad)

/-- Whether the arguments of an INSERT fit the column types of the table of
lines 172-186: a timestamp, a text, and eleven `integer`s. -/
def wellTyped : List Value → Bool
  | .time _ :: .text _ :: rest => rest.length == 11 && rest.all fitsInteger
  | _ => false

/-- Whether some two rows share a key. -/
def hasDuplicateKey : List Row → Bool
  | [] => false
  | r :: rest => rest.any (fun r2 => r2.key == r.key) || hasDuplicateKey rest

/-- The error of `pgx` for arguments that do not fit the column types: the
arguments are encoded for the column types before the statement is sent, and
the first integer that does not fit 32 bits is refused.  Arguments of another
shape than the program's are a protocol violation (08P01). -/
def encodeError (args : List Value) : Error :=
  match misfit args 0 with
  | some (i, n) => .encode i n
  | none => .pg "08P01"

/-- The call `Exec` on the reference model.  SQLSTATE codes: 0A000 feature not
supported, 42883 undefined function, 42P01 undefined table, TS110 already a
hypertable, 23505 unique violation, 42601 for a statement that is not one of
the program's.  Arguments that do not fit the column types are refused by
`pgx` itself (`encodeError`). -/
def Pg.exec (db : PgDb) (s : Stmt) : Except Error PgDb :=
  if s.sql = sqlCreateExtension then
    if db.extension then .ok db
    else if db.available then .ok { db with extension := true }
    else .error (.pg "0A000")
  else if s.sql = sqlCreateTable then
    match db.table with
    | some _ => .ok db
    | none => .ok { db with table := some [] }
  else if s.sql = sqlCreateHypertable then
    if !db.extension then .error (.pg "42883")
    else match db.table with
      | none => .error (.pg "42P01")
      | some rows =>
        if db.hypertable then .error (.pg "TS110")
        else if !rows.isEmpty then .error (.pg "0A000")
        else .ok { db with hypertable := true }
  else if s.sql = sqlCreateUniqueIndex then
    if db.uniqueIndex then .ok db
    else match db.table with
      | none => .error (.pg "42P01")
      | some rows =>
        if hasDuplicateKey rows then .error (.pg "23505")
        else .ok { db with uniqueIndex := true }
  else if s.sql = sqlInsert then
    match db.table with
    | none => .error (.pg "42P01")
    | some rows =>
      if !wellTyped s.args then .error (encodeError s.args)
      else if db.uniqueIndex && rows.any (fun r => r.key == s.row.key) then
        .error (.pg "23505")
      else .ok { db with table := some (rows ++ [s.row]) }
  else .error (.pg "42601")

/-- The call `QueryRow(...).Scan` on the reference model: the count query needs the
extension's catalog view and counts the hypertable. -/
def Pg.queryInt (db : PgDb) (s : Stmt) : Except Error Int :=
  if s.sql = sqlCountHypertables then
    if db.extension then .ok (if db.hypertable then 1 else 0)
    else .error (.pg "42P01")
  else .error (.pg "42601")

/-- The reference model as a `Storage`. -/
def Pg : Storage PgDb := ⟨Pg.exec, Pg.queryInt⟩

/-- The database after a sequence of statements, each executed on its own: a
rejected statement leaves the database as it was. -/
def execAll (db : PgDb) (stmts : List Stmt) : PgDb :=
  stmts.foldl (fun d s => match Pg.exec d s with
    | .ok d2 => d2
    | .error _ => d) db

/-- An empty database on a server that offers the extension. -/
def emptyDb : PgDb :=
  { available := true, extension := false, table := none, hypertable := false,
    uniqueIndex := false }

/-! ## Concrete inputs -/

/-- The response body of the spec's example. -/
def sampleBody : Body :=
  .value (.obj [("ppv1", .int 1), ("ppv2", .int 2), ("ppv3", .int 3), ("ppv", .int 6),
    ("pCharge", .int 10), ("pDisCharge", .int 0), ("soc", .int 80), ("pinv", .int 5),
    ("pToUser", .int 1), ("pToGrid", .int 0)])

/-- The values of the spec's example, by field. -/
def sampleValues : Field → Int
  | .PhotoVoltaic1Watts => 1
  | .PhotoVoltaic2Watts => 2
  | .PhotoVoltaic3Watts => 3
  | .PhotoVoltaicTotalWatts => 6
  | .InverterToBattery => 10
  | .BatteryToInverter => 0
  | .BatteryChargePercent => 80
  | .InverterToLoad => 5
  | .GridToLoad => 1
  | .InverterToGrid => 0

/-- The example body with `ppv1` replaced by 2^63, one past the largest `int`. -/
def overflowBody : Body :=
  .value (.obj [("ppv1", .int 9223372036854775808), ("ppv2", .int 2), ("ppv3", .int 3),
    ("ppv", .int 6), ("pCharge", .int 10), ("pDisCharge", .int 0), ("soc", .int 80),
    ("pinv", .int 5), ("pToUser", .int 1), ("pToGrid", .int 0)])

/-- The example body followed by one more member `"PPV1": 7`. -/
def foldedKeyBody : Body :=
  .value (.obj [("ppv1", .int 1), ("ppv2", .int 2), ("ppv3", .int 3), ("ppv", .int 6),
    ("pCharge", .int 10), ("pDisCharge", .int 0), ("soc", .int 80), ("pinv", .int 5),
    ("pToUser", .int 1), ("pToGrid", .int 0), ("PPV1", .int 7)])

/-- A body whose `ppv1` is a valid integer and whose `soc` is a string. -/
def badSocBody : Body :=
  .value (.obj [("ppv1", .int 1), ("soc", .str "80")])

/-- A server stand-in over a jar that is the list of cookies held: the login
URL answers with an empty object and sets one session cookie, every other URL
answers with `body`; the jar offers all its cookies to every URL. -/
def stubNet (body : Body) : Net (List String) :=
  { urlParse := sampleParse
    cookies := fun jar _ => jar
    postForm := fun jar req =>
      if req.url = "http://example.com/web/login" then
        (.ok ⟨.ok (.value (.obj []))⟩, jar ++ ["JSESSIONID=0123"])
      else (.ok ⟨.ok body⟩, jar) }

/-- A server stand-in that refuses every connection. -/
def downNet : Net (List String) :=
  { urlParse := sampleParse
    cookies := fun jar _ => jar
    postForm := fun jar _ => (.error (.http "dial tcp: connection refused"), jar) }

/-- The configuration `NewConfig` builds from `sampleEnv`. -/
def sampleConfig : Config :=
  { AccountName := "alice", Password := "secret", StationNumber := "1234567890",
    BaseUrl := ⟨"http://example.com"⟩, DatabaseUrl := "postgres://db/lux" }

/-- A downloader over the reference database with the given jar and nothing
sent so far. -/
def sampleDownloader (jar : List String) (db : PgDb) : LuxpowerDownload (List String) PgDb :=
  { Config := sampleConfig, Jar := jar, Client := ⟨[]⟩, Connection := ⟨db, []⟩ }

/-- The login request for `sampleConfig`. -/
def sampleLoginRequest : Request :=
  ⟨"http://example.com/web/login", [("account", ["alice"]), ("password", ["secret"])]⟩

/-- The runtime-data request for `sampleConfig`. -/
def sampleLiveRequest : Request :=
  ⟨"http://example.com/api/inverter/getInverterRuntime", [("serialNum", ["1234567890"])]⟩

/-- A body is a JSON object that holds each of the ten API keys with the
integer value `vals` gives it. -/
def HoldsKeys (body : Body) (vals : Field → Int) : Prop :=
  ∃ members, body = .value (.obj members) ∧ ∀ f : Field, (f.tag, JSON.int (vals f)) ∈ members

/-- The example values with 2^63 for `ppv1`. -/
def overflowValues (f : Field) : Int :=
  if f = .PhotoVoltaic1Watts then 9223372036854775808 else sampleValues f

/-- A check that every member the decoder stores into a field carries the
integer `vals` gives that field. -/
def agrees (vals : Field → Int) (members : List (String × JSON)) : Bool :=
  members.all fun m =>
    match findField m.1, m.2 with
    | none, _ => true
    | some f, .int n => n == vals f
    | some _, _ => false

/-- The members of the spec's example body. -/
def sampleMembers : List (String × JSON) :=
  [("ppv1", .int 1), ("ppv2", .int 2), ("ppv3", .int 3), ("ppv", .int 6),
   ("pCharge", .int 10), ("pDisCharge", .int 0), ("soc", .int 80), ("pinv", .int 5),
   ("pToUser", .int 1), ("pToGrid", .int 0)]

/-- The state a function left behind, however it ended. -/
def Outcome.state {α σ : Type} : Outcome α σ → σ
  | .returned _ s => s
  | .fatal _ s => s

/-- The error `log.Fatal` was called with, if the function ended that way. -/
def Outcome.fatalError {α σ : Type} : Outcome α σ → Option Error
  | .returned _ _ => none
  | .fatal err _ => some err

/-- The value a function returned, if it returned. -/
def Outcome.value {α σ : Type} : Outcome α σ → Option α
  | .returned a _ => some a
  | .fatal _ _ => none

/-- The database `MigrateDb` leaves when run on `emptyDb`. -/
def migratedDb : PgDb :=
  { available := true, extension := true, table := some [], hypertable := true,
    uniqueIndex := true }

/-- The snapshot of the spec's example. -/
def sampleData : LiveData := ⟨1, 2, 3, 6, 10, 0, 80, 5, 1, 0⟩

/-- The row written for `sampleData` at time 1700000000. -/
def sampleRow : Row :=
  [("time", .time 1700000000), ("station_number", .text "1234567890"),
   ("battery_charge_percent", .int 80), ("pv_1", .int 1), ("pv_2", .int 2), ("pv_3", .int 3),
   ("pv_total", .int 6), ("battery_charge", .int 10), ("battery_discharge", .int 0),
   ("inverter_to_load", .int 5), ("inverter_to_grid", .int 0), ("grid_to_load", .int 1),
   ("load", .int 6)]

/-- The row the specification describes for a snapshot written at `now` for a
station: each field in its matching column, and `load` the sum of
`InverterToLoad` and `GridToLoad`. -/
def specRow (stationNumber : String) (now : Int) (data : LiveData) : Row :=
  [("time", .time now), ("station_number", .text stationNumber),
   ("battery_charge_percent", .int data.BatteryChargePercent),
   ("pv_1", .int data.PhotoVoltaic1Watts), ("pv_2", .int data.PhotoVoltaic2Watts),
   ("pv_3", .int data.PhotoVoltaic3Watts), ("pv_total", .int data.PhotoVoltaicTotalWatts),
   ("battery_charge", .int data.InverterToBattery),
   ("battery_discharge", .int data.BatteryToInverter),
   ("inverter_to_load", .int data.InverterToLoad),
   ("inverter_to_grid", .int data.InverterToGrid),
   ("grid_to_load", .int data.GridToLoad),
   ("load", .int (data.InverterToLoad + data.GridToLoad))]

/-- The five statements of a `MigrateDb` run that converts the table. -/
def migrationWithConversion : List Stmt :=
  [⟨sqlCreateExtension, []⟩, ⟨sqlCreateTable, []⟩, ⟨sqlCountHypertables, []⟩,
   ⟨sqlCreateHypertable, []⟩, ⟨sqlCreateUniqueIndex, []⟩]

/-- The four statements of a `MigrateDb` run that skips the conversion. -/
def migrationWithoutConversion : List Stmt :=
  [⟨sqlCreateExtension, []⟩, ⟨sqlCreateTable, []⟩, ⟨sqlCountHypertables, []⟩,
   ⟨sqlCreateUniqueIndex, []⟩]

/-- The table and its unique index exist. -/
def Ready (db : PgDb) : Prop := db.table.isSome = true ∧ db.uniqueIndex = true

/-- A snapshot whose total does not fit a 32-bit `integer` column. -/
def largeData : LiveData := ⟨1, 2, 3, 3000000000, 10, 0, 80, 5, 1, 0⟩

/-- A response body carrying `largeData`. -/
def largeBody : Body :=
  .value (.obj [("ppv1", .int 1), ("ppv2", .int 2), ("ppv3", .int 3), ("ppv", .int 3000000000),
    ("pCharge", .int 10), ("pDisCharge", .int 0), ("soc", .int 80), ("pinv", .int 5),
    ("pToUser", .int 1), ("pToGrid", .int 0)])

/-- A snapshot whose ten values fit 32 bits while the derived `load` does not. -/
def largeLoadData : LiveData := ⟨1, 2, 3, 6, 10, 0, 80, 2147483647, 1, 0⟩

/-- A response body carrying `largeLoadData`. -/
def largeLoadBody : Body :=
  .value (.obj [("ppv1", .int 1), ("ppv2", .int 2), ("ppv3", .int 3), ("ppv", .int 6),
    ("pCharge", .int 10), ("pDisCharge", .int 0), ("soc", .int 80), ("pinv", .int 2147483647),
    ("pToUser", .int 1), ("pToGrid", .int 0)])

/-- The row written for `sampleData` at time 1700000001. -/
def laterRow : Row :=
  [("time", .time 1700000001), ("station_number", .text "1234567890"),
   ("battery_charge_percent", .int 80), ("pv_1", .int 1), ("pv_2", .int 2), ("pv_3", .int 3),
   ("pv_total", .int 6), ("battery_charge", .int 10), ("battery_discharge", .int 0),
   ("inverter_to_load", .int 5), ("inverter_to_grid", .int 0), ("grid_to_load", .int 1),
   ("load", .int 6)]

/-- The migrated database holding the example row and a later one. -/
def twoRowDb : PgDb := { migratedDb with table := some [sampleRow, laterRow] }

/-- The migrated database holding the row of the spec's example. -/
def oneRowDb : PgDb := { migratedDb with table := some [sampleRow] }

/-- A host whose API server refuses every connection; everything else works. -/
def fetchFailsHost : Host (List String) PgDb :=
  { env := sampleEnv, net := downNet, store := Pg, connect := fun _ => .ok emptyDb,
    ping := fun _ => none, newJar := .ok [], now := 1700000000 }

/-- A database server that does not offer the timescaledb extension. -/
def noExtensionDb : PgDb := { emptyDb with available := false }

/-- A host whose database server does not offer the extension, so that
`MigrateDb` fails at its first statement; the API server works. -/
def migrateFailsHost : Host (List String) PgDb :=
  { env := sampleEnv, net := stubNet sampleBody, store := Pg,
    connect := fun _ => .ok noExtensionDb, ping := fun _ => none, newJar := .ok [],
    now := 1700000000 }

/-! ## cmd/main.go: `LiveDataDisplay.MarshalJSON` -/

/-- The `type LiveDataDisplay LiveData` of main.go, line 35. -/
abbrev LiveDataDisplay := LiveData

/-- The `%#v` rendering of an `int`: its decimal Go syntax, with a leading
minus sign for a negative value. -/
def formatInt (v : Int) : String :=
  if v < 0 then "-" ++ Nat.repr v.natAbs else Nat.repr v.natAbs

/-- The text `fmt.Sprintf("\"%s\":%#v", k, v)` for field `f` of `ldd`. -/
def kvpair (ldd : LiveDataDisplay) (f : Field) : String :=
  "\"" ++ f.name ++ "\":" ++ formatInt (f.get ldd)

/-- The slice `kvpairs` after the loop of lines 41-45 over the fields. -/
def kvpairs (ldd : LiveDataDisplay) : List String :=
  Field.all.foldl (fun acc f => acc ++ [kvpair ldd f]) []

/-- The method `MarshalJSON` of main.go, lines 37-48: the bytes, as text, and the error. -/
def LiveDataDisplay.MarshalJSON (ldd : LiveDataDisplay) : String × Option Error :=
  ("\x7b" ++ String.intercalate "," (kvpairs ldd) ++ "\x7d", none)

/-- The number a list of decimal digit characters denotes. -/
def decimalValue (cs : List Char) : Nat :=
  cs.foldl (fun acc c => 10 * acc + (c.toNat - 48)) 0

/-- The characters `0` to `9`. -/
def IsDigit (c : Char) : Prop := 48 ≤ c.toNat ∧ c.toNat ≤ 57

/-- The characters of the output after the opening brace, for the fields
`fs`: each pair, a comma between two pairs, and the closing brace. -/
def renderPairs (ldd : LiveDataDisplay) : List Field → List Char
  | [] => ['\x7d']
  | [f] => (kvpair ldd f).data ++ ['\x7d']
  | f :: g :: rest => (kvpair ldd f).data ++ ',' :: renderPairs ldd (g :: rest)

/-- A host whose environment lacks `DATABASE_URL`; everything else works. -/
def noConfigHost : Host (List String) PgDb :=
  { env := noDatabaseEnv, net := stubNet sampleBody, store := Pg,
    connect := fun _ => .ok emptyDb, ping := fun _ => none, newJar := .ok [],
    now := 1700000000 }

/-! # Theorems -/

/-! ## Configuration -/

theorem lookupEnv_present {env : Env} {k v : String} (h : env k = some v) :
    LookupEnv env k = (v, true) := by
  simp [LookupEnv, h]

theorem not_missing_iff {env : Env} {v : Var} :
    ¬ Missing env v ↔ ∃ x, env v.key = some x ∧ x ≠ "" := by
  unfold Missing
  cases h : env v.key with
  | none => simp
  | some x => simp

/-- C3 (as amended): when all five variables are set and non-empty and
`LUXPOWER_URL` parses, `NewConfig` succeeds with exactly the environment's
values (`BaseUrl` being the parsed URL); when exactly one variable is unset or
empty and, in case that one is `DATABASE_URL`, `LUXPOWER_URL` parses,
`NewConfig` fails with the error fixed for that variable, and the five errors
are pairwise different. -/
theorem NewConfig_spec (urlParse : UrlParse) (env : Env) :
    (∀ a p s b d u,
        env "ACCOUNT_NAME" = some a → a ≠ "" →
        env "ACCOUNT_PASSWORD" = some p → p ≠ "" →
        env "STATION_NUMBER" = some s → s ≠ "" →
        env "LUXPOWER_URL" = some b → b ≠ "" →
        env "DATABASE_URL" = some d → d ≠ "" →
        urlParse b = .ok u →
        NewConfig urlParse env = .ok
          { AccountName := a, Password := p, StationNumber := s, BaseUrl := u,
            DatabaseUrl := d }) ∧
    (∀ v : Var, Missing env v → (∀ w : Var, w ≠ v → ¬ Missing env w) →
        (v = .DATABASE_URL →
          ∀ b, env "LUXPOWER_URL" = some b → ∃ u, urlParse b = .ok u) →
        NewConfig urlParse env = .error v.notSet ∧
        ∀ w : Var, w ≠ v → w.notSet ≠ v.notSet) := by
  refine ⟨?_, ?_⟩
  · intro a p s b d u ha ha0 hp hp0 hs hs0 hb hb0 hd hd0 hu
    simp [NewConfig, lookupEnv_present ha, lookupEnv_present hp, lookupEnv_present hs,
      lookupEnv_present hb, lookupEnv_present hd, ha0, hp0, hs0, hb0, hd0, hu]
  · intro v hv hothers hurl
    refine ⟨?_, ?_⟩
    · have get : ∀ w : Var, w ≠ v → ∃ x, env w.key = some x ∧ x ≠ "" :=
        fun w hw => not_missing_iff.mp (hothers w hw)
      cases v with
      | ACCOUNT_NAME =>
        rcases hv with h | h <;> simp only [Var.key] at h <;>
          simp [NewConfig, LookupEnv, h, Var.notSet]
      | ACCOUNT_PASSWORD =>
        obtain ⟨a, ha, ha0⟩ := get .ACCOUNT_NAME (by decide)
        simp only [Var.key] at ha
        rcases hv with h | h <;> simp only [Var.key] at h <;>
          simp [NewConfig, LookupEnv, ha, ha0, h, Var.notSet]
      | STATION_NUMBER =>
        obtain ⟨a, ha, ha0⟩ := get .ACCOUNT_NAME (by decide)
        obtain ⟨p, hp, hp0⟩ := get .ACCOUNT_PASSWORD (by decide)
        simp only [Var.key] at ha hp
        rcases hv with h | h <;> simp only [Var.key] at h <;>
          simp [NewConfig, LookupEnv, ha, ha0, hp, hp0, h, Var.notSet]
      | LUXPOWER_URL =>
        obtain ⟨a, ha, ha0⟩ := get .ACCOUNT_NAME (by decide)
        obtain ⟨p, hp, hp0⟩ := get .ACCOUNT_PASSWORD (by decide)
        obtain ⟨s, hs, hs0⟩ := get .STATION_NUMBER (by decide)
        simp only [Var.key] at ha hp hs
        rcases hv with h | h <;> simp only [Var.key] at h <;>
          simp [NewConfig, LookupEnv, ha, ha0, hp, hp0, hs, hs0, h, Var.notSet]
      | DATABASE_URL =>
        obtain ⟨a, ha, ha0⟩ := get .ACCOUNT_NAME (by decide)
        obtain ⟨p, hp, hp0⟩ := get .ACCOUNT_PASSWORD (by decide)
        obtain ⟨s, hs, hs0⟩ := get .STATION_NUMBER (by decide)
        obtain ⟨b, hb, hb0⟩ := get .LUXPOWER_URL (by decide)
        simp only [Var.key] at ha hp hs hb
        obtain ⟨u, hu⟩ := hurl rfl b hb
        rcases hv with h | h <;> simp only [Var.key] at h <;>
          simp [NewConfig, LookupEnv, ha, ha0, hp, hp0, hs, hs0, hb, hb0, hu, h, Var.notSet]
    · intro w hw
      cases v <;> cases w <;> first | exact absurd rfl hw | decide

/-- C3, at concrete inputs: the complete sample environment yields its five
values, and the same environment without `DATABASE_URL` yields the error of
`DATABASE_URL`. -/
theorem NewConfig_spec_witness :
    NewConfig sampleParse sampleEnv = .ok
      { AccountName := "alice", Password := "secret", StationNumber := "1234567890",
        BaseUrl := ⟨"http://example.com"⟩, DatabaseUrl := "postgres://db/lux" } ∧
    NewConfig sampleParse noDatabaseEnv = .error (.new "database url not set") :=
  ⟨(NewConfig_spec sampleParse sampleEnv).1 "alice" "secret" "1234567890"
      "http://example.com" "postgres://db/lux" ⟨"http://example.com"⟩
      (by decide) (by decide) (by decide) (by decide) (by decide) (by decide)
      (by decide) (by decide) (by decide) (by decide) (by decide),
   ((NewConfig_spec sampleParse noDatabaseEnv).2 .DATABASE_URL (by decide)
      (by intro w hw; cases w <;> first | exact absurd rfl hw | decide)
      (by intro _ b hb; exact ⟨⟨b⟩, by
            have : b = "http://example.com" := by
              have h : noDatabaseEnv "LUXPOWER_URL" = some "http://example.com" := by decide
              rw [h] at hb; exact (Option.some.inj hb).symm
            subst this; decide⟩)).1⟩

/-- C3 as stated fails: in two environments where `DATABASE_URL` is the only
missing variable the errors differ, because `LUXPOWER_URL` is parsed before
`DATABASE_URL` is looked up; with an unparsable `LUXPOWER_URL` the error is
the parse error, not the one naming `DATABASE_URL`. -/
theorem NewConfig_missing_database_url_counterexample :
    (Missing badUrlEnv .DATABASE_URL ∧
      ∀ w : Var, w ≠ .DATABASE_URL → ¬ Missing badUrlEnv w) ∧
    (Missing noDatabaseEnv .DATABASE_URL ∧
      ∀ w : Var, w ≠ .DATABASE_URL → ¬ Missing noDatabaseEnv w) ∧
    NewConfig sampleParse noDatabaseEnv = .error (.new "database url not set") ∧
    NewConfig sampleParse badUrlEnv =
      .error (.url "parse \"http://example.com/%zz\": invalid URL escape \"%zz\"") ∧
    NewConfig sampleParse badUrlEnv ≠ NewConfig sampleParse noDatabaseEnv := by
  refine ⟨⟨by decide, ?_⟩, ⟨by decide, ?_⟩, by decide, by decide, by decide⟩
  · intro w hw; cases w <;> first | exact absurd rfl hw | decide
  · intro w hw; cases w <;> first | exact absurd rfl hw | decide

/-! ## Decoding the response -/

theorem Field.get_set (f g : Field) (d : LiveData) (x : Int) :
    g.get (f.set d x) = if g = f then x else g.get d := by
  cases f <;> cases g <;> rfl

theorem findField_tag (f : Field) : findField f.tag = some f := by
  cases f <;> decide

theorem LiveData.ext_get {a b : LiveData} (h : ∀ f : Field, f.get a = f.get b) : a = b := by
  cases a; cases b
  have h1 := h .PhotoVoltaic1Watts; have h2 := h .PhotoVoltaic2Watts
  have h3 := h .PhotoVoltaic3Watts; have h4 := h .PhotoVoltaicTotalWatts
  have h5 := h .InverterToBattery; have h6 := h .BatteryToInverter
  have h7 := h .BatteryChargePercent; have h8 := h .InverterToLoad
  have h9 := h .GridToLoad; have h10 := h .InverterToGrid
  simp only [Field.get] at h1 h2 h3 h4 h5 h6 h7 h8 h9 h10
  simp [h1, h2, h3, h4, h5, h6, h7, h8, h9, h10]

theorem Field.get_ofValues (vals : Field → Int) (f : Field) :
    f.get (LiveData.ofValues vals) = vals f := by
  cases f <;> rfl

/-- Decoding members that all carry in-range integers for the fields they are
stored into: no error, every field named by a member holds its value, every
other field is untouched. -/
theorem foldl_decodeMember_ok (vals : Field → Int) (hrange : ∀ f, InRange (vals f)) :
    ∀ (members : List (String × JSON)) (data : LiveData),
      (∀ k v f, (k, v) ∈ members → findField k = some f → v = .int (vals f)) →
      (members.foldl decodeMember (data, none)).2 = none ∧
      ∀ f : Field,
        ((∃ k v, (k, v) ∈ members ∧ findField k = some f) →
          f.get (members.foldl decodeMember (data, none)).1 = vals f) ∧
        ((¬ ∃ k v, (k, v) ∈ members ∧ findField k = some f) →
          f.get (members.foldl decodeMember (data, none)).1 = f.get data) := by
  intro members
  induction members with
  | nil => intro data _; simp
  | cons m rest ih =>
    intro data hsame
    obtain ⟨k, v⟩ := m
    have hrest : ∀ k v f, (k, v) ∈ rest → findField k = some f → v = .int (vals f) :=
      fun k v f hm hf => hsame k v f (List.mem_cons_of_mem _ hm) hf
    rw [List.foldl_cons]
    cases hk : findField k with
    | none =>
      have hstep : decodeMember (data, none) (k, v) = (data, none) := by
        simp [decodeMember, hk]
      rw [hstep]
      obtain ⟨h1, h2⟩ := ih data hrest
      refine ⟨h1, fun f => ⟨?_, ?_⟩⟩
      · rintro ⟨k', v', hm, hf⟩
        rcases List.mem_cons.mp hm with heq | hm'
        · obtain ⟨rfl, rfl⟩ := Prod.mk.inj heq
          rw [hk] at hf; cases hf
        · exact (h2 f).1 ⟨k', v', hm', hf⟩
      · intro hno
        exact (h2 f).2 (fun ⟨k', v', hm', hf⟩ => hno ⟨k', v', List.mem_cons_of_mem _ hm', hf⟩)
    | some g =>
      have hv : v = .int (vals g) := hsame k v g (List.mem_cons_self _ _) hk
      have hstep : decodeMember (data, none) (k, v) = (g.set data (vals g), none) := by
        simp [decodeMember, hk, hv, storeInt, hrange g]
      rw [hstep]
      obtain ⟨h1, h2⟩ := ih (g.set data (vals g)) hrest
      refine ⟨h1, fun f => ⟨?_, ?_⟩⟩
      · rintro ⟨k', v', hm, hf⟩
        by_cases hex : ∃ k v, (k, v) ∈ rest ∧ findField k = some f
        · exact (h2 f).1 hex
        · rw [(h2 f).2 hex, Field.get_set]
          rcases List.mem_cons.mp hm with heq | hm'
          · obtain ⟨rfl, rfl⟩ := Prod.mk.inj heq
            rw [hk] at hf
            obtain rfl := Option.some.inj hf
            simp
          · exact absurd ⟨k', v', hm', hf⟩ hex
      · intro hno
        have hex : ¬ ∃ k v, (k, v) ∈ rest ∧ findField k = some f :=
          fun ⟨k', v', hm', hf⟩ => hno ⟨k', v', List.mem_cons_of_mem _ hm', hf⟩
        rw [(h2 f).2 hex, Field.get_set]
        have hne : f ≠ g := fun h => hno ⟨k, v, List.mem_cons_self _ _, h ▸ hk⟩
        simp [hne]

/-- An object that holds every tag with an in-range integer, and whose members
stored into a field all carry that field's value, decodes to those values. -/
theorem Unmarshal_object_ok (vals : Field → Int) (members : List (String × JSON))
    (data : LiveData)
    (hkeys : ∀ f : Field, (f.tag, JSON.int (vals f)) ∈ members)
    (hrange : ∀ f, InRange (vals f))
    (hsame : ∀ k v f, (k, v) ∈ members → findField k = some f → v = .int (vals f)) :
    Unmarshal (.value (.obj members)) data = (LiveData.ofValues vals, none) := by
  obtain ⟨h1, h2⟩ := foldl_decodeMember_ok vals hrange members data hsame
  have hdata : (members.foldl decodeMember (data, none)).1 = LiveData.ofValues vals := by
    apply LiveData.ext_get
    intro f
    rw [Field.get_ofValues]
    exact (h2 f).1 ⟨f.tag, _, hkeys f, findField_tag f⟩
  show members.foldl decodeMember (data, none) = _
  exact Prod.ext hdata h1

/-- What `GetLiveData(false)` returns once the fetch has reached the decoder. -/
theorem GetLiveData_of_fetches {J D : Type} (net : Net J) (ld ld2 : LuxpowerDownload J D)
    (body : Body) (h : Fetches net ld body ld2) :
    ld.GetLiveData net false =
      (match Unmarshal body LiveData.zero with
        | (_, some err) => ((LiveData.zero, some err), ld2)
        | (data, none) => ((data, none), ld2)) := by
  obtain ⟨ld1, liveUrl, r, hlogin, hurl, hpost, hbody⟩ := h
  simp only [LuxpowerDownload.GetLiveData, Bool.false_eq_true, if_false, hlogin, hurl, hpost,
    hbody]

/-- C5: in test mode `GetLiveData` returns the zero snapshot and a nil error
and hands back the downloader unchanged, whatever its state: no request is
recorded on the client, and the jar, config and connection are as before. -/
theorem GetLiveData_test_mode {J D : Type} (net : Net J) (ld : LuxpowerDownload J D) :
    ld.GetLiveData net true = ((⟨0, 0, 0, 0, 0, 0, 0, 0, 0, 0⟩, none), ld) ∧
    (ld.GetLiveData net true).2.Client.sent = ld.Client.sent ∧
    (ld.GetLiveData net true).2.Jar = ld.Jar := by
  refine ⟨rfl, rfl, rfl⟩

theorem stubNet_fetches (body : Body) (db : PgDb) :
    Fetches (stubNet body) (sampleDownloader [] db) body
      { Config := sampleConfig, Jar := ["JSESSIONID=0123"],
        Client := ⟨[sampleLoginRequest, sampleLiveRequest]⟩, Connection := ⟨db, []⟩ } := by
  refine ⟨{ Config := sampleConfig, Jar := ["JSESSIONID=0123"],
            Client := ⟨[sampleLoginRequest]⟩, Connection := ⟨db, []⟩ },
          ⟨"http://example.com/api/inverter/getInverterRuntime"⟩, ⟨.ok body⟩, ?_, ?_, ?_, rfl⟩
  · rfl
  · rfl
  · rfl

/-- C1 (as amended): when the fetch reaches the decoder with a JSON object that
holds the ten keys with integer values inside the range of Go's `int`, and
every member the decoder stores into a field (its key is that field's key,
exactly or under case folding) carries that field's value, `GetLiveData(false)`
returns a nil error and the snapshot whose ten fields are those values, in
field order. -/
theorem GetLiveData_decodes_snapshot {J D : Type} (net : Net J)
    (ld ld2 : LuxpowerDownload J D) (members : List (String × JSON)) (vals : Field → Int)
    (hfetch : Fetches net ld (.value (.obj members)) ld2)
    (hkeys : ∀ f : Field, (f.tag, JSON.int (vals f)) ∈ members)
    (hrange : ∀ f, InRange (vals f))
    (hsame : ∀ k v f, (k, v) ∈ members → findField k = some f → v = .int (vals f)) :
    ld.GetLiveData net false =
      (({ PhotoVoltaic1Watts := vals .PhotoVoltaic1Watts
          PhotoVoltaic2Watts := vals .PhotoVoltaic2Watts
          PhotoVoltaic3Watts := vals .PhotoVoltaic3Watts
          PhotoVoltaicTotalWatts := vals .PhotoVoltaicTotalWatts
          InverterToBattery := vals .InverterToBattery
          BatteryToInverter := vals .BatteryToInverter
          BatteryChargePercent := vals .BatteryChargePercent
          InverterToLoad := vals .InverterToLoad
          GridToLoad := vals .GridToLoad
          InverterToGrid := vals .InverterToGrid }, none), ld2) := by
  rw [GetLiveData_of_fetches net ld ld2 _ hfetch,
    Unmarshal_object_ok vals members LiveData.zero hkeys hrange hsame]
  rfl

theorem agrees_sound (vals : Field → Int) (members : List (String × JSON))
    (h : agrees vals members = true) :
    ∀ k v f, (k, v) ∈ members → findField k = some f → v = .int (vals f) := by
  intro k v f hm hf
  have hall := List.all_eq_true.mp h (k, v) hm
  simp only [hf] at hall
  cases v <;> simp_all

/-- C1 at the spec's example: a first call on an empty jar, answered with the
example body, returns 1, 2, 3, 6, 10, 0, 80, 5, 1, 0 and no error. -/
theorem GetLiveData_decodes_snapshot_witness :
    (sampleDownloader [] emptyDb).GetLiveData (stubNet sampleBody) false =
      ((⟨1, 2, 3, 6, 10, 0, 80, 5, 1, 0⟩, none),
        { Config := sampleConfig, Jar := ["JSESSIONID=0123"],
          Client := ⟨[sampleLoginRequest, sampleLiveRequest]⟩,
          Connection := ⟨emptyDb, []⟩ }) :=
  GetLiveData_decodes_snapshot (stubNet sampleBody) (sampleDownloader [] emptyDb) _
    sampleMembers sampleValues (stubNet_fetches sampleBody emptyDb)
    (fun f => by cases f <;> simp [Field.tag, sampleValues, sampleMembers])
    (fun f => by cases f <;> decide)
    (agrees_sound sampleValues sampleMembers (by decide))

/-- C1 as stated fails at two bodies that hold the ten keys with integer
values.  With 2^63 for `ppv1` the decoder reports that the number does not fit
an `int`, and `GetLiveData(false)` returns that error with the zero snapshot.
With one more member `"PPV1": 7` after the ten keys the decoder stores 7 into
`PhotoVoltaic1Watts`, although the value of key `ppv1` is 1. -/
theorem GetLiveData_decodes_snapshot_counterexample :
    (HoldsKeys overflowBody overflowValues ∧
      ((sampleDownloader [] emptyDb).GetLiveData (stubNet overflowBody) false).1 =
        (⟨0, 0, 0, 0, 0, 0, 0, 0, 0, 0⟩,
          some (.json ("json: cannot unmarshal number 9223372036854775808 into Go struct " ++
            "field LiveData.ppv1 of type int")))) ∧
    (HoldsKeys foldedKeyBody sampleValues ∧
      ((sampleDownloader [] emptyDb).GetLiveData (stubNet foldedKeyBody) false).1 =
        (⟨7, 2, 3, 6, 10, 0, 80, 5, 1, 0⟩, none) ∧
      sampleValues .PhotoVoltaic1Watts = 1) := by
  refine ⟨⟨⟨_, rfl, fun f => ?_⟩, by decide⟩, ⟨⟨_, rfl, fun f => ?_⟩, by decide, rfl⟩⟩
  · cases f <;> simp [Field.tag, overflowValues, sampleValues]
  · cases f <;> simp [Field.tag, sampleValues]

/-- C7: when the fetch reaches the decoder and decoding the body fails,
`GetLiveData(false)` returns the decoder's error together with the zero
snapshot, whatever the decoder had already stored (`decoded`). -/
theorem GetLiveData_decode_failure {J D : Type} (net : Net J)
    (ld ld2 : LuxpowerDownload J D) (body : Body) (decoded : LiveData) (err : Error)
    (hfetch : Fetches net ld body ld2)
    (hfail : Unmarshal body LiveData.zero = (decoded, some err)) :
    ld.GetLiveData net false = ((⟨0, 0, 0, 0, 0, 0, 0, 0, 0, 0⟩, some err), ld2) := by
  rw [GetLiveData_of_fetches net ld ld2 _ hfetch, hfail]
  rfl

/-- C7 at a body whose `ppv1` is 1 and whose `soc` is a string: the decoder
has stored 1 into `PhotoVoltaic1Watts` when it fails on `soc`, and the returned
snapshot is zero in every field. -/
theorem GetLiveData_decode_failure_witness :
    (Unmarshal badSocBody LiveData.zero).1.PhotoVoltaic1Watts = 1 ∧
    ((sampleDownloader [] emptyDb).GetLiveData (stubNet badSocBody) false).1 =
      (⟨0, 0, 0, 0, 0, 0, 0, 0, 0, 0⟩,
        some (.json ("json: cannot unmarshal string into Go struct field LiveData.soc " ++
          "of type int"))) :=
  ⟨by decide,
   congrArg Prod.fst
    (GetLiveData_decode_failure (stubNet badSocBody) (sampleDownloader [] emptyDb) _
      badSocBody ⟨1, 0, 0, 0, 0, 0, 0, 0, 0, 0⟩ _ (stubNet_fetches badSocBody emptyDb)
      (by decide))⟩

/-! ## The requests of a fetch -/

theorem PostForm_sent {J D : Type} (net : Net J) (l : LuxpowerDownload J D) (u : String)
    (v : Values) : (l.PostForm net u v).2.Client.sent = l.Client.sent ++ [⟨u, v⟩] := rfl

theorem authenticate_state {J D : Type} (net : Net J) (l : LuxpowerDownload J D) :
    (l.authenticate net).2 =
      (match net.urlParse (l.Config.BaseUrl.text ++ "/web/login") with
        | .error _ => l
        | .ok postUrl =>
          (l.PostForm net postUrl.text
            [("account", [l.Config.AccountName]), ("password", [l.Config.Password])]).2) := by
  simp only [LuxpowerDownload.authenticate]
  cases net.urlParse (l.Config.BaseUrl.text ++ "/web/login") with
  | error err => rfl
  | ok postUrl =>
    simp only []
    rcases l.PostForm net postUrl.text
      [("account", [l.Config.AccountName]), ("password", [l.Config.Password])]
      with ⟨_ | r, ld1⟩ <;> rfl

theorem authenticate_config {J D : Type} (net : Net J) (l : LuxpowerDownload J D) :
    (l.authenticate net).2.Config = l.Config := by
  rw [authenticate_state]
  cases net.urlParse (l.Config.BaseUrl.text ++ "/web/login") <;> rfl

theorem authenticate_sent {J D : Type} (net : Net J) (l : LuxpowerDownload J D)
    (loginUrl : URL)
    (h : net.urlParse (l.Config.BaseUrl.text ++ "/web/login") = .ok loginUrl) :
    (l.authenticate net).2.Client.sent =
      l.Client.sent ++
        [⟨loginUrl.text,
          [("account", [l.Config.AccountName]), ("password", [l.Config.Password])]⟩] := by
  rw [authenticate_state, h]
  rfl

/-- The downloader after `GetLiveData(false)`: after a login that did not
fail, or with no login, it is the one left by the runtime-data POST when the
URL parses. -/
theorem GetLiveData_state {J D : Type} (net : Net J) (ld : LuxpowerDownload J D) :
    ((net.cookies ld.Jar ld.Config.BaseUrl).length = 0 →
      ∀ ld1, ld.authenticate net = (none, ld1) →
        (ld.GetLiveData net false).2 =
          (match net.urlParse (ld1.Config.BaseUrl.text ++ "/api/inverter/getInverterRuntime")
            with
            | .error _ => ld1
            | .ok liveUrl =>
              (ld1.PostForm net liveUrl.text [("serialNum", [ld1.Config.StationNumber])]).2)) ∧
    (¬ (net.cookies ld.Jar ld.Config.BaseUrl).length = 0 →
        (ld.GetLiveData net false).2 =
          (match net.urlParse (ld.Config.BaseUrl.text ++ "/api/inverter/getInverterRuntime")
            with
            | .error _ => ld
            | .ok liveUrl =>
              (ld.PostForm net liveUrl.text [("serialNum", [ld.Config.StationNumber])]).2)) := by
  have key : ∀ l : LuxpowerDownload J D,
      ((match net.urlParse (l.Config.BaseUrl.text ++ "/api/inverter/getInverterRuntime") with
        | .error err => ((LiveData.zero, some err), l)
        | .ok liveUrl =>
          match l.PostForm net liveUrl.text [("serialNum", [l.Config.StationNumber])] with
          | (.error err, ld2) => ((LiveData.zero, some err), ld2)
          | (.ok r, ld2) =>
            match r.body with
            | .error err => ((LiveData.zero, some err), ld2)
            | .ok body =>
              match Unmarshal body LiveData.zero with
              | (_, some err) => ((LiveData.zero, some err), ld2)
              | (data, none) => ((data, none), ld2)) :
          (LiveData × Option Error) × LuxpowerDownload J D).2 =
        (match net.urlParse (l.Config.BaseUrl.text ++ "/api/inverter/getInverterRuntime") with
          | .error _ => l
          | .ok liveUrl =>
            (l.PostForm net liveUrl.text [("serialNum", [l.Config.StationNumber])]).2) := by
    intro l
    cases net.urlParse (l.Config.BaseUrl.text ++ "/api/inverter/getInverterRuntime") with
    | error err => rfl
    | ok liveUrl =>
      simp only []
      rcases hp : l.PostForm net liveUrl.text [("serialNum", [l.Config.StationNumber])]
        with ⟨_ | r, ld2⟩
      · rfl
      · simp only []
        cases r.body with
        | error err => rfl
        | ok body =>
          simp only []
          rcases Unmarshal body LiveData.zero with ⟨data, _ | err⟩ <;> rfl
  refine ⟨fun hjar ld1 hlogin => ?_, fun hjar => ?_⟩
  · simp only [LuxpowerDownload.GetLiveData, Bool.false_eq_true, if_false, hjar, if_true,
      hlogin]
    exact key ld1
  · simp only [LuxpowerDownload.GetLiveData, Bool.false_eq_true, if_false, hjar]
    exact key ld

/-- C4: when the two request URLs parse and every exchange succeeds, the calls
of `PostForm` that `GetLiveData(false)` adds are: with no cookie in the jar for
the base URL, one login POST to the URL parsed from `baseUrl/web/login` with
form fields `account` and `password`, then one POST to the URL parsed from
`baseUrl/api/inverter/getInverterRuntime` with the single form field
`serialNum` holding the station number; with a cookie in the jar, only the
latter. -/
theorem GetLiveData_requests {J D : Type} (net : Net J) (ld : LuxpowerDownload J D)
    (loginUrl liveUrl : URL)
    (hloginUrl : net.urlParse (ld.Config.BaseUrl.text ++ "/web/login") = .ok loginUrl)
    (hliveUrl : net.urlParse (ld.Config.BaseUrl.text ++ "/api/inverter/getInverterRuntime")
      = .ok liveUrl)
    (hok : ∀ jar req, ∃ r, (net.postForm jar req).1 = .ok r) :
    (ld.GetLiveData net false).2.Client.sent =
      ld.Client.sent ++
        (if (net.cookies ld.Jar ld.Config.BaseUrl).length = 0 then
          [⟨loginUrl.text,
              [("account", [ld.Config.AccountName]), ("password", [ld.Config.Password])]⟩,
           ⟨liveUrl.text, [("serialNum", [ld.Config.StationNumber])]⟩]
        else [⟨liveUrl.text, [("serialNum", [ld.Config.StationNumber])]⟩]) := by
  by_cases hjar : (net.cookies ld.Jar ld.Config.BaseUrl).length = 0
  · obtain ⟨r, hr⟩ := hok ld.Jar ⟨loginUrl.text,
      [("account", [ld.Config.AccountName]), ("password", [ld.Config.Password])]⟩
    have hlogin : ld.authenticate net = (none, (ld.authenticate net).2) := by
      simp only [LuxpowerDownload.authenticate, hloginUrl, LuxpowerDownload.PostForm]
      split <;> simp_all
    have hstate := (GetLiveData_state net ld).1 hjar _ hlogin
    rw [hstate, authenticate_config, hliveUrl]
    simp only [PostForm_sent]
    rw [authenticate_sent net ld loginUrl hloginUrl]
    simp [hjar]
  · have hstate := (GetLiveData_state net ld).2 hjar
    rw [hstate, hliveUrl]
    simp [PostForm_sent, hjar]

theorem stubNet_ok (body : Body) (jar : List String) (req : Request) :
    ∃ r, ((stubNet body).postForm jar req).1 = .ok r := by
  by_cases h : req.url = "http://example.com/web/login"
  · exact ⟨⟨.ok (.value (.obj []))⟩, by simp only [stubNet, h, if_true]⟩
  · exact ⟨⟨.ok body⟩, by simp only [stubNet, h, if_false]⟩

/-- C4 at concrete inputs: on an empty jar the requests are the login POST
then the runtime-data POST; on a jar that holds a cookie, the runtime-data
POST alone. -/
theorem GetLiveData_requests_witness :
    ((sampleDownloader [] emptyDb).GetLiveData (stubNet sampleBody) false).2.Client.sent =
      [⟨"http://example.com/web/login", [("account", ["alice"]), ("password", ["secret"])]⟩,
       ⟨"http://example.com/api/inverter/getInverterRuntime",
          [("serialNum", ["1234567890"])]⟩] ∧
    ((sampleDownloader ["JSESSIONID=0123"] emptyDb).GetLiveData
        (stubNet sampleBody) false).2.Client.sent =
      [⟨"http://example.com/api/inverter/getInverterRuntime",
          [("serialNum", ["1234567890"])]⟩] :=
  ⟨GetLiveData_requests (stubNet sampleBody) (sampleDownloader [] emptyDb)
      ⟨"http://example.com/web/login"⟩ ⟨"http://example.com/api/inverter/getInverterRuntime"⟩
      rfl rfl (stubNet_ok sampleBody),
   GetLiveData_requests (stubNet sampleBody) (sampleDownloader ["JSESSIONID=0123"] emptyDb)
      ⟨"http://example.com/web/login"⟩ ⟨"http://example.com/api/inverter/getInverterRuntime"⟩
      rfl rfl (stubNet_ok sampleBody)⟩

/-! ## Writing the row -/

theorem GetLiveData_frame {J D : Type} (net : Net J) (ld : LuxpowerDownload J D)
    (test_mode : Bool) :
    (ld.GetLiveData net test_mode).2.Config = ld.Config ∧
    (ld.GetLiveData net test_mode).2.Connection = ld.Connection := by
  cases test_mode with
  | true => exact ⟨rfl, rfl⟩
  | false =>
    have hauth : (ld.authenticate net).2.Config = ld.Config ∧
        (ld.authenticate net).2.Connection = ld.Connection := by
      rw [authenticate_state]
      cases net.urlParse (ld.Config.BaseUrl.text ++ "/web/login") <;> exact ⟨rfl, rfl⟩
    by_cases hjar : (net.cookies ld.Jar ld.Config.BaseUrl).length = 0
    · rcases hlogin : ld.authenticate net with ⟨_ | err, ld1⟩
      · rw [hlogin] at hauth
        rw [(GetLiveData_state net ld).1 hjar ld1 hlogin]
        cases net.urlParse (ld1.Config.BaseUrl.text ++ "/api/inverter/getInverterRuntime")
          <;> exact hauth
      · rw [hlogin] at hauth
        simp only [LuxpowerDownload.GetLiveData, Bool.false_eq_true, if_false, hjar, if_true,
          hlogin]
        exact hauth
    · rw [(GetLiveData_state net ld).2 hjar]
      cases net.urlParse (ld.Config.BaseUrl.text ++ "/api/inverter/getInverterRuntime")
        <;> exact ⟨rfl, rfl⟩

theorem goAdd_exact (a b : Int) (h : InRange (a + b)) : goAdd a b = a + b := by
  unfold InRange minInt maxInt at h
  unfold goAdd
  rw [Int.emod_eq_of_lt (by omega) (by omega)]
  omega

set_option maxRecDepth 4096 in
theorem sql_distinct :
    sqlCreateTable ≠ sqlCreateExtension ∧ sqlCreateHypertable ≠ sqlCreateExtension ∧
    sqlCreateHypertable ≠ sqlCreateTable ∧ sqlCreateUniqueIndex ≠ sqlCreateExtension ∧
    sqlCreateUniqueIndex ≠ sqlCreateTable ∧ sqlCreateUniqueIndex ≠ sqlCreateHypertable ∧
    sqlInsert ≠ sqlCreateExtension ∧ sqlInsert ≠ sqlCreateTable ∧
    sqlInsert ≠ sqlCreateHypertable ∧ sqlInsert ≠ sqlCreateUniqueIndex := by
  decide

theorem Pg_exec_createExtension (db : PgDb) :
    Pg.exec db ⟨sqlCreateExtension, []⟩ =
      if db.extension then .ok db
      else if db.available then .ok { db with extension := true }
      else .error (.pg "0A000") := by
  simp only [Pg.exec, if_true]

theorem Pg_exec_createTable (db : PgDb) :
    Pg.exec db ⟨sqlCreateTable, []⟩ =
      match db.table with
      | some _ => .ok db
      | none => .ok { db with table := some [] } := by
  simp only [Pg.exec, sql_distinct.1, if_false, if_true]

theorem Pg_exec_createHypertable (db : PgDb) :
    Pg.exec db ⟨sqlCreateHypertable, []⟩ =
      if !db.extension then .error (.pg "42883")
      else match db.table with
        | none => .error (.pg "42P01")
        | some rows =>
          if db.hypertable then .error (.pg "TS110")
          else if !rows.isEmpty then .error (.pg "0A000")
          else .ok { db with hypertable := true } := by
  simp only [Pg.exec, sql_distinct.2.1, sql_distinct.2.2.1, if_false, if_true]

theorem Pg_exec_createUniqueIndex (db : PgDb) :
    Pg.exec db ⟨sqlCreateUniqueIndex, []⟩ =
      if db.uniqueIndex then .ok db
      else match db.table with
        | none => .error (.pg "42P01")
        | some rows =>
          if hasDuplicateKey rows then .error (.pg "23505")
          else .ok { db with uniqueIndex := true } := by
  simp only [Pg.exec, sql_distinct.2.2.2.1, sql_distinct.2.2.2.2.1, sql_distinct.2.2.2.2.2.1,
    if_false, if_true]

theorem Pg_exec_insert (db : PgDb) (args : List Value) :
    Pg.exec db ⟨sqlInsert, args⟩ =
      match db.table with
      | none => .error (.pg "42P01")
      | some rows =>
        if !wellTyped args then .error (encodeError args)
        else if db.uniqueIndex && rows.any (fun r => r.key == Row.key (insertColumns.zip args))
        then .error (.pg "23505")
        else .ok { db with table := some (rows ++ [insertColumns.zip args]) } := by
  simp only [Pg.exec, sql_distinct.2.2.2.2.2.2.1, sql_distinct.2.2.2.2.2.2.2.1,
    sql_distinct.2.2.2.2.2.2.2.2.1, sql_distinct.2.2.2.2.2.2.2.2.2, if_false, if_true, Stmt.row]

set_option maxRecDepth 4096 in
theorem Pg_queryInt_count (db : PgDb) :
    Pg.queryInt db ⟨sqlCountHypertables, []⟩ =
      if db.extension then .ok (if db.hypertable then 1 else 0)
      else .error (.pg "42P01") := by
  simp only [Pg.queryInt, if_true]

theorem wellTyped_insertArgs (cfg : Config) (now : Int) (data : LiveData)
    (h : wellTyped (insertArgs cfg now data) = true) :
    InRange (data.InverterToLoad + data.GridToLoad) := by
  simp only [wellTyped, insertArgs, List.all_cons, fitsInteger, fits32, Bool.and_eq_true,
    decide_eq_true_eq] at h
  obtain ⟨_, _, _, _, _, _, _, _, ⟨h1, h2⟩, _, ⟨h3, h4⟩, _⟩ := h
  unfold InRange minInt maxInt
  constructor <;> omega

set_option maxRecDepth 100000 in
/-- The INSERT text is the column list followed by the placeholders `$1` to
`$13` in order, so that the i-th argument is the value of the i-th column. -/
theorem sqlInsert_columns :
    sqlInsert =
      "INSERT INTO inverter_data (" ++ String.intercalate ", " insertColumns ++
      ")\n\t\tVALUES (" ++
      String.intercalate ", " ((List.range 13).map fun i => "$" ++ toString (i + 1)) ++ ")" := by
  decide

/-- C2: when `GetLiveData(false)` returns a snapshot without error,
`UpdateInverterData` sends exactly one statement, the INSERT into
`inverter_data`, whose row carries the configured station number in
`station_number`, each snapshot field in its matching column, and in `load`
the Go sum of `InverterToLoad` and `GridToLoad`.  That sum is the exact
integer sum whenever it is an `int`; and whenever the reference database
accepts the INSERT, the row it stores is the specified row, with `load` equal
to `InverterToLoad + GridToLoad`. -/
theorem UpdateInverterData_row {J D : Type} (net : Net J) (store : Storage D) (now : Int)
    (ld ld1 : LuxpowerDownload J D) (log : List LogLine) (data : LiveData)
    (hget : ld.GetLiveData net false = ((data, none), ld1)) :
    (ld.UpdateInverterData net store now log).state.1.Connection.issued =
      ld.Connection.issued ++ [insertStmt ld.Config now data] ∧
    (insertStmt ld.Config now data).sql = sqlInsert ∧
    (insertStmt ld.Config now data).row =
      (specRow ld.Config.StationNumber now data).dropLast ++
        [("load", .int (goAdd data.InverterToLoad data.GridToLoad))] ∧
    (InRange (data.InverterToLoad + data.GridToLoad) →
      (insertStmt ld.Config now data).row = specRow ld.Config.StationNumber now data) ∧
    (∀ db db2 : PgDb, Pg.exec db (insertStmt ld.Config now data) = .ok db2 →
      ∃ rows, db.table = some rows ∧
        db2.table = some (rows ++ [specRow ld.Config.StationNumber now data])) := by
  have hframe := GetLiveData_frame net ld false
  rw [hget] at hframe
  obtain ⟨hcfg, hconn⟩ := hframe
  simp only at hcfg hconn
  have hexact : InRange (data.InverterToLoad + data.GridToLoad) →
      (insertStmt ld.Config now data).row = specRow ld.Config.StationNumber now data := by
    intro h
    simp only [insertStmt, Stmt.row, insertArgs, insertColumns, specRow, goAdd_exact _ _ h,
      List.zip_cons_cons, List.zip_nil_right]
  refine ⟨?_, rfl, rfl, hexact, ?_⟩
  · simp only [LuxpowerDownload.UpdateInverterData, hget, Conn.Exec, hcfg, hconn]
    cases store.exec ld.Connection.db (insertStmt ld.Config now data) <;> rfl
  · intro db db2 hexec
    have hexec2 : Pg.exec db ⟨sqlInsert, insertArgs ld.Config now data⟩ = .ok db2 := hexec
    rw [Pg_exec_insert] at hexec2
    cases htab : db.table with
    | none => rw [htab] at hexec2; cases hexec2
    | some rows =>
      rw [htab] at hexec2
      simp only at hexec2
      by_cases hty : wellTyped (insertArgs ld.Config now data) = true
      · have hrow := hexact (wellTyped_insertArgs _ _ _ hty)
        simp only [insertStmt, Stmt.row] at hrow
        simp only [hty, Bool.not_true, Bool.false_eq_true, if_false] at hexec2
        split at hexec2
        · cases hexec2
        · cases hexec2
          exact ⟨rows, rfl, by rw [hrow]⟩
      · simp only [hty, Bool.not_false, if_true] at hexec2
        cases hexec2

theorem sample_fetch (db : PgDb) :
    (sampleDownloader [] db).GetLiveData (stubNet sampleBody) false =
      ((sampleData, none),
        { Config := sampleConfig, Jar := ["JSESSIONID=0123"],
          Client := ⟨[sampleLoginRequest, sampleLiveRequest]⟩, Connection := ⟨db, []⟩ }) := by
  rw [GetLiveData_of_fetches _ _ _ _ (stubNet_fetches sampleBody db)]
  have h : Unmarshal sampleBody LiveData.zero = (sampleData, none) := by decide
  rw [h]

/-- C2 at the spec's example: for the snapshot with `inverterToLoad = 5` and
`gridToLoad = 1` fetched at time 1700000000, the one statement sent is the
INSERT, its row has `load = 6`, and the migrated database stores that row. -/
theorem UpdateInverterData_row_witness :
    ((sampleDownloader [] migratedDb).UpdateInverterData (stubNet sampleBody) Pg
        1700000000 []).state.1.Connection.issued =
      [insertStmt sampleConfig 1700000000 sampleData] ∧
    (insertStmt sampleConfig 1700000000 sampleData).row = sampleRow ∧
    sampleRow.lookup "load" = some (.int 6) ∧
    Pg.exec migratedDb (insertStmt sampleConfig 1700000000 sampleData) =
      .ok { migratedDb with table := some [sampleRow] } :=
  have h := UpdateInverterData_row (stubNet sampleBody) Pg 1700000000
    (sampleDownloader [] migratedDb) _ [] sampleData (sample_fetch migratedDb)
  ⟨h.1, h.2.2.2.1 (by decide), by decide, by
    rw [show insertStmt sampleConfig 1700000000 sampleData
      = ⟨sqlInsert, insertArgs sampleConfig 1700000000 sampleData⟩ from rfl, Pg_exec_insert]
    decide⟩

/-! ## Schema bootstrap -/

theorem Pg_store_exec (db : PgDb) (s : Stmt) : Storage.exec Pg db s = Pg.exec db s := rfl

theorem Pg_store_queryInt (db : PgDb) (s : Stmt) :
    Storage.queryInt Pg db s = Pg.queryInt db s := rfl

theorem Conn.Exec_ok {D : Type} (store : Storage D) (conn conn2 : Conn D) (s : Stmt)
    (h : conn.Exec store s = (none, conn2)) :
    store.exec conn.db s = .ok conn2.db ∧ conn2.issued = conn.issued ++ [s] := by
  simp only [Conn.Exec] at h
  cases hx : store.exec conn.db s with
  | error err => rw [hx] at h; cases h
  | ok db => rw [hx] at h; cases h; exact ⟨rfl, rfl⟩

theorem MigrateDb_emptyDb (issued : List Stmt) :
    MigrateDb Pg ⟨emptyDb, issued⟩ = (none, ⟨migratedDb, issued ++ migrationWithConversion⟩) := by
  simp [MigrateDb, Conn.Exec, Conn.QueryRowScan, Pg_store_exec, Pg_store_queryInt,
    Pg_exec_createExtension, Pg_exec_createTable, Pg_exec_createHypertable,
    Pg_exec_createUniqueIndex, Pg_queryInt_count, emptyDb, migratedDb, hasDuplicateKey,
    migrationWithConversion]

theorem MigrateDb_migratedDb (issued : List Stmt) :
    MigrateDb Pg ⟨migratedDb, issued⟩ =
      (none, ⟨migratedDb, issued ++ migrationWithoutConversion⟩) := by
  simp [MigrateDb, Conn.Exec, Conn.QueryRowScan, Pg_store_exec, Pg_store_queryInt,
    Pg_exec_createExtension, Pg_exec_createTable, Pg_exec_createHypertable,
    Pg_exec_createUniqueIndex, Pg_queryInt_count, migratedDb, migrationWithoutConversion]

set_option maxRecDepth 4096 in
theorem hypertable_stmt_mem :
    (⟨sqlCreateHypertable, []⟩ : Stmt) ∈ migrationWithConversion ∧
    (⟨sqlCreateHypertable, []⟩ : Stmt) ∉ migrationWithoutConversion := by
  decide

set_option maxRecDepth 8192 in
theorem hypertable_count :
    (migrationWithConversion ++ migrationWithoutConversion).count
      ⟨sqlCreateHypertable, []⟩ = 1 := by
  decide

/-- The accepted statements behind a `MigrateDb` run that returned nil. -/
theorem MigrateDb_steps {D : Type} (store : Storage D) (conn conn2 : Conn D)
    (h : MigrateDb store conn = (none, conn2)) :
    ∃ d1 d2 n d3,
      store.exec conn.db ⟨sqlCreateExtension, []⟩ = .ok d1 ∧
      store.exec d1 ⟨sqlCreateTable, []⟩ = .ok d2 ∧
      store.queryInt d2 ⟨sqlCountHypertables, []⟩ = .ok n ∧
      (if n = 0 then store.exec d2 ⟨sqlCreateHypertable, []⟩ = .ok d3 else d3 = d2) ∧
      store.exec d3 ⟨sqlCreateUniqueIndex, []⟩ = .ok conn2.db ∧
      conn2.issued = conn.issued ++
        (if n = 0 then migrationWithConversion else migrationWithoutConversion) := by
  simp only [MigrateDb] at h
  rcases h1 : conn.Exec store ⟨sqlCreateExtension, []⟩ with ⟨_ | e1, c1⟩
  swap
  · rw [h1] at h; cases h
  rw [h1] at h
  simp only at h
  rcases h2 : c1.Exec store ⟨sqlCreateTable, []⟩ with ⟨_ | e2, c2⟩
  swap
  · rw [h2] at h; cases h
  rw [h2] at h
  simp only [Conn.QueryRowScan] at h
  obtain ⟨hx1, hi1⟩ := Conn.Exec_ok _ _ _ _ h1
  obtain ⟨hx2, hi2⟩ := Conn.Exec_ok _ _ _ _ h2
  cases h3 : store.queryInt c2.db ⟨sqlCountHypertables, []⟩ with
  | error e3 => rw [h3] at h; cases h
  | ok n =>
    rw [h3] at h
    simp only at h
    by_cases hn : n = 0
    · simp only [hn, if_true] at h
      rcases h4 : Conn.Exec store ⟨c2.db, c2.issued ++ [⟨sqlCountHypertables, []⟩]⟩
        ⟨sqlCreateHypertable, []⟩ with ⟨_ | e4, c4⟩
      swap
      · rw [h4] at h; cases h
      rw [h4] at h
      simp only at h
      rcases h5 : c4.Exec store ⟨sqlCreateUniqueIndex, []⟩ with ⟨_ | e5, c5⟩
      swap
      · rw [h5] at h; cases h
      rw [h5] at h
      cases h
      obtain ⟨hx4, hi4⟩ := Conn.Exec_ok _ _ _ _ h4
      obtain ⟨hx5, hi5⟩ := Conn.Exec_ok _ _ _ _ h5
      refine ⟨c1.db, c2.db, n, c4.db, hx1, hx2, h3, by simpa [hn] using hx4, hx5, ?_⟩
      rw [hi5, hi4, hi2, hi1]
      simp [migrationWithConversion, hn]
    · simp only [hn, if_false] at h
      rcases h5 : Conn.Exec store ⟨c2.db, c2.issued ++ [⟨sqlCountHypertables, []⟩]⟩
        ⟨sqlCreateUniqueIndex, []⟩ with ⟨_ | e5, c5⟩
      swap
      · rw [h5] at h; cases h
      rw [h5] at h
      cases h
      obtain ⟨hx5, hi5⟩ := Conn.Exec_ok _ _ _ _ h5
      refine ⟨c1.db, c2.db, n, c2.db, hx1, hx2, h3, by simp [hn], hx5, ?_⟩
      rw [hi5, hi2, hi1]
      simp [migrationWithoutConversion, hn]

/-- C9: when `MigrateDb` returns nil, the extension and table statements and
the count query were accepted in that order, and with `n` the count returned:
the statements sent are extension, table, count, `create_hypertable`, unique
index when `n = 0`, and the same without `create_hypertable` otherwise; so
`create_hypertable` is sent exactly when `n = 0`.  On the reference database,
two runs in sequence from the empty database both return nil, the first
sending the five statements and the second the four without
`create_hypertable`, which is thus sent once.  The extension, table and index
statements are the `IF NOT EXISTS` texts. -/
theorem MigrateDb_hypertable_guard {D : Type} (store : Storage D) (conn conn2 : Conn D)
    (h : MigrateDb store conn = (none, conn2)) :
    (∃ d1 d2 n sentNow,
      store.exec conn.db ⟨sqlCreateExtension, []⟩ = .ok d1 ∧
      store.exec d1 ⟨sqlCreateTable, []⟩ = .ok d2 ∧
      store.queryInt d2 ⟨sqlCountHypertables, []⟩ = .ok n ∧
      conn2.issued = conn.issued ++ sentNow ∧
      sentNow = (if n = 0 then migrationWithConversion else migrationWithoutConversion) ∧
      ((⟨sqlCreateHypertable, []⟩ : Stmt) ∈ sentNow ↔ n = 0)) ∧
    (MigrateDb Pg ⟨emptyDb, []⟩ = (none, ⟨migratedDb, migrationWithConversion⟩) ∧
      MigrateDb Pg ⟨migratedDb, migrationWithConversion⟩ =
        (none, ⟨migratedDb, migrationWithConversion ++ migrationWithoutConversion⟩) ∧
      (migrationWithConversion ++ migrationWithoutConversion).count
        ⟨sqlCreateHypertable, []⟩ = 1) ∧
    ("CREATE EXTENSION IF NOT EXISTS ".toList <+: sqlCreateExtension.toList ∧
      "CREATE TABLE IF NOT EXISTS ".toList <+: sqlCreateTable.toList ∧
      "CREATE UNIQUE INDEX IF NOT EXISTS ".toList <+: sqlCreateUniqueIndex.toList) := by
  refine ⟨?_, ⟨MigrateDb_emptyDb [], MigrateDb_migratedDb _, hypertable_count⟩, by decide⟩
  obtain ⟨d1, d2, n, d3, h1, h2, h3, -, -, hi⟩ := MigrateDb_steps store conn conn2 h
  refine ⟨d1, d2, n, _, h1, h2, h3, hi, rfl, ?_⟩
  by_cases hn : n = 0
  · simp [hn, hypertable_stmt_mem.1]
  · simp [hn, hypertable_stmt_mem.2]

set_option maxRecDepth 8192 in
/-- C9 on the reference database: the first run on the empty database finds
count 0 and sends the five statements, `create_hypertable` among them. -/
theorem MigrateDb_hypertable_guard_witness :
    (∃ d1 d2 n sentNow,
      Pg.exec emptyDb ⟨sqlCreateExtension, []⟩ = .ok d1 ∧
      Pg.exec d1 ⟨sqlCreateTable, []⟩ = .ok d2 ∧
      Pg.queryInt d2 ⟨sqlCountHypertables, []⟩ = .ok n ∧
      migrationWithConversion = [] ++ sentNow ∧
      sentNow = (if n = 0 then migrationWithConversion else migrationWithoutConversion) ∧
      ((⟨sqlCreateHypertable, []⟩ : Stmt) ∈ sentNow ↔ n = 0)) :=
  (MigrateDb_hypertable_guard Pg ⟨emptyDb, []⟩ ⟨migratedDb, migrationWithConversion⟩
    (MigrateDb_emptyDb [])).1

/-! ## The unique index -/

theorem Pg_exec_ready (db db2 : PgDb) (s : Stmt) (h : Pg.exec db s = .ok db2)
    (hr : Ready db) : Ready db2 := by
  obtain ⟨ht, hu⟩ := hr
  obtain ⟨rows, hrows⟩ := Option.isSome_iff_exists.mp ht
  unfold Pg.exec at h
  rw [hrows, hu] at h
  simp only at h
  split_ifs at h <;> cases h <;> first
    | exact ⟨ht, hu⟩
    | exact ⟨rfl, rfl⟩

theorem execAll_ready (stmts : List Stmt) : ∀ db : PgDb, Ready db → Ready (execAll db stmts) := by
  induction stmts with
  | nil => intro db h; exact h
  | cons s rest ih =>
    intro db h
    simp only [execAll, List.foldl_cons]
    cases hx : Pg.exec db s with
    | error err => exact ih db h
    | ok d2 => exact ih d2 (Pg_exec_ready db d2 s hx h)

theorem MigrateDb_ready (conn conn2 : Conn PgDb) (h : MigrateDb Pg conn = (none, conn2)) :
    Ready conn2.db := by
  obtain ⟨d1, d2, n, d3, -, h2, -, h4, h5, -⟩ := MigrateDb_steps Pg conn conn2 h
  rw [Pg_store_exec, Pg_exec_createTable] at h2
  have ht2 : d2.table.isSome = true := by
    cases htab : d1.table with
    | none => rw [htab] at h2; cases h2; rfl
    | some rows => rw [htab] at h2; cases h2; simp [htab]
  have ht3 : d3.table.isSome = true := by
    by_cases hn : n = 0
    · simp only [hn, if_true, Pg_store_exec, Pg_exec_createHypertable] at h4
      obtain ⟨rows, hrows⟩ := Option.isSome_iff_exists.mp ht2
      rw [hrows] at h4
      simp only at h4
      split_ifs at h4
      cases h4
      simp [hrows]
    · simp only [hn, if_false] at h4
      rw [h4]; exact ht2
  rw [Pg_store_exec, Pg_exec_createUniqueIndex] at h5
  obtain ⟨rows, hrows⟩ := Option.isSome_iff_exists.mp ht3
  rw [hrows] at h5
  simp only at h5
  split_ifs at h5 with hu hd
  · rw [← Except.ok.inj h5]; exact ⟨ht3, hu⟩
  · rw [← Except.ok.inj h5]; exact ⟨rfl, rfl⟩

theorem insertStmt_key (cfg : Config) (now : Int) (data : LiveData) :
    Row.key (insertColumns.zip (insertArgs cfg now data)) =
      (some (.time now), some (.text cfg.StationNumber)) := rfl

theorem UpdateInverterData_of_get {J D : Type} (net : Net J) (store : Storage D) (now : Int)
    (ld ld1 : LuxpowerDownload J D) (log : List LogLine) (data : LiveData)
    (hget : ld.GetLiveData net false = ((data, none), ld1)) :
    ld.UpdateInverterData net store now log =
      (match store.exec ld.Connection.db (insertStmt ld.Config now data) with
        | .ok db => .returned none
            ({ ld1 with Connection := ⟨db, ld.Connection.issued ++ [insertStmt ld.Config now data]⟩ },
              log ++ [.text "Fetching data from LuxPower"])
        | .error err => .fatal err
            ({ ld1 with Connection :=
                ⟨ld.Connection.db, ld.Connection.issued ++ [insertStmt ld.Config now data]⟩ },
              log ++ [.text "Fetching data from LuxPower"] ++ [.error err])) := by
  have hframe := GetLiveData_frame net ld false
  rw [hget] at hframe
  obtain ⟨hcfg, hconn⟩ := hframe
  simp only at hcfg hconn
  simp only [LuxpowerDownload.UpdateInverterData, hget, Conn.Exec, hcfg, hconn]
  cases store.exec ld.Connection.db (insertStmt ld.Config now data) <;> rfl

theorem wellTyped_eq_fitsColumns (cfg : Config) (now : Int) (data : LiveData) :
    wellTyped (insertArgs cfg now data) = fitsColumns data := by
  have key : InRange (data.InverterToLoad + data.GridToLoad) →
      goAdd data.InverterToLoad data.GridToLoad = data.InverterToLoad + data.GridToLoad :=
    goAdd_exact _ _
  unfold InRange minInt maxInt at key
  rw [Bool.eq_iff_iff]
  simp only [wellTyped, insertArgs, fitsColumns, Field.all, List.all_cons, List.all_nil,
    fitsInteger, fits32, Field.get, Bool.and_eq_true, decide_eq_true_eq, List.length_cons,
    List.length_nil, beq_iff_eq, Bool.and_true, true_and]
  generalize goAdd data.InverterToLoad data.GridToLoad = g at key ⊢
  constructor
  · intro h
    have := key (by omega)
    omega
  · intro h
    have := key (by omega)
    omega

theorem misfit_none (l : List Value) : ∀ i : Nat, misfit l i = none →
    ∀ n : Int, Value.int n ∈ l → fits32 n = true := by
  induction l with
  | nil => intro i _ n hn; cases hn
  | cons v rest ih =>
    intro i h n hn
    cases v with
    | int m =>
      simp only [misfit] at h
      split_ifs at h with hm
      rcases List.mem_cons.mp hn with heq | hmem
      · cases heq; exact hm
      · exact ih (i + 1) h n hmem
    | time t =>
      simp only [misfit] at h
      rcases List.mem_cons.mp hn with heq | hmem
      · cases heq
      · exact ih (i + 1) h n hmem
    | text t =>
      simp only [misfit] at h
      rcases List.mem_cons.mp hn with heq | hmem
      · cases heq
      · exact ih (i + 1) h n hmem

theorem misfit_some (l : List Value) : ∀ (i j : Nat) (n : Int), misfit l i = some (j, n) →
    fits32 n = false := by
  induction l with
  | nil => intro i j n h; cases h
  | cons v rest ih =>
    intro i j n h
    cases v with
    | int m =>
      simp only [misfit] at h
      split_ifs at h with hm
      · exact ih (i + 1) j n h
      · cases h; simpa using hm
    | time t => simp only [misfit] at h; exact ih (i + 1) j n h
    | text t => simp only [misfit] at h; exact ih (i + 1) j n h

/-- For a snapshot that does not fit the columns, the refusal names an
argument of the INSERT and its value, which does not fit 32 bits. -/
theorem encodeError_insertArgs (cfg : Config) (now : Int) (data : LiveData)
    (h : fitsColumns data = false) :
    ∃ (i : Nat) (n : Int), encodeError (insertArgs cfg now data) = .encode i n ∧
      fits32 n = false := by
  rw [← wellTyped_eq_fitsColumns cfg now data] at h
  unfold encodeError
  cases hm : misfit (insertArgs cfg now data) 0 with
  | some p => exact ⟨p.1, p.2, rfl, misfit_some _ 0 p.1 p.2 hm⟩
  | none =>
    exfalso
    have hall := misfit_none _ 0 hm
    have hw : wellTyped (insertArgs cfg now data) = true := by
      simp only [insertArgs] at hall
      have e1 := hall data.BatteryChargePercent (by simp)
      have e2 := hall data.PhotoVoltaic1Watts (by simp)
      have e3 := hall data.PhotoVoltaic2Watts (by simp)
      have e4 := hall data.PhotoVoltaic3Watts (by simp)
      have e5 := hall data.PhotoVoltaicTotalWatts (by simp)
      have e6 := hall data.InverterToBattery (by simp)
      have e7 := hall data.BatteryToInverter (by simp)
      have e8 := hall data.InverterToLoad (by simp)
      have e9 := hall data.InverterToGrid (by simp)
      have e10 := hall data.GridToLoad (by simp)
      have e11 := hall (goAdd data.InverterToLoad data.GridToLoad) (by simp)
      simp [wellTyped, insertArgs, fitsInteger, e1, e2, e3, e4, e5, e6, e7, e8, e9, e10, e11]
    rw [hw] at h
    cases h

theorem Pg_exec_rows (db db2 : PgDb) (s : Stmt) (h : Pg.exec db s = .ok db2)
    (rows : List Row) (hrows : db.table = some rows) :
    ∃ more, db2.table = some (rows ++ more) := by
  unfold Pg.exec at h
  rw [hrows] at h
  simp only at h
  split_ifs at h <;> cases h <;> first
    | exact ⟨[s.row], rfl⟩
    | (refine ⟨[], ?_⟩; rw [List.append_nil]; exact hrows)
    | (refine ⟨[], ?_⟩; rw [List.append_nil])

theorem execAll_rows (stmts : List Stmt) : ∀ (db : PgDb) (rows : List Row),
    db.table = some rows → ∃ more, (execAll db stmts).table = some (rows ++ more) := by
  induction stmts with
  | nil => intro db rows h; exact ⟨[], by simpa [execAll] using h⟩
  | cons s rest ih =>
    intro db rows h
    simp only [execAll, List.foldl_cons]
    cases hx : Pg.exec db s with
    | error err => exact ih db rows h
    | ok d2 =>
      obtain ⟨m1, h1⟩ := Pg_exec_rows db d2 s hx rows h
      obtain ⟨m2, h2⟩ := ih d2 (rows ++ m1) h1
      exact ⟨m1 ++ m2, by simpa [execAll, List.append_assoc] using h2⟩

/-- An accepted INSERT of the program appends the specified row. -/
theorem Pg_insert_stored (db db1 : PgDb) (cfg : Config) (now : Int) (data : LiveData)
    (hr : Ready db) (h : Pg.exec db (insertStmt cfg now data) = .ok db1) :
    (∃ rows, db.table = some rows ∧
      db1.table = some (rows ++ [specRow cfg.StationNumber now data])) ∧ Ready db1 := by
  refine ⟨?_, Pg_exec_ready db db1 _ h hr⟩
  obtain ⟨ht, -⟩ := hr
  obtain ⟨rows, hrows⟩ := Option.isSome_iff_exists.mp ht
  have h2 : Pg.exec db ⟨sqlInsert, insertArgs cfg now data⟩ = .ok db1 := h
  rw [Pg_exec_insert, hrows] at h2
  simp only at h2
  by_cases hty : wellTyped (insertArgs cfg now data) = true
  swap
  · simp only [hty, Bool.not_false, if_true] at h2
    cases h2
  simp only [hty, Bool.not_true, Bool.false_eq_true, if_false] at h2
  split at h2
  · cases h2
  cases h2
  have hrow : insertColumns.zip (insertArgs cfg now data) = specRow cfg.StationNumber now data := by
    simp only [insertArgs, insertColumns, specRow,
      goAdd_exact _ _ (wellTyped_insertArgs _ _ _ hty), List.zip_cons_cons,
      List.zip_nil_right]
  exact ⟨rows, hrows, by simp only [hrow]⟩

/-- An INSERT of the program on a database with the unique index that already
holds a row of the same time and station is refused: with the unique
violation when its values fit the columns, and for the value that does not fit
otherwise. -/
theorem Pg_insert_duplicate (db : PgDb) (rows : List Row) (r : Row) (cfg : Config) (now : Int)
    (data : LiveData) (hu : db.uniqueIndex = true) (ht : db.table = some rows)
    (hr : r ∈ rows) (hk : r.key = (some (.time now), some (.text cfg.StationNumber))) :
    Pg.exec db (insertStmt cfg now data) =
      .error (if fitsColumns data then .pg "23505"
        else encodeError (insertArgs cfg now data)) := by
  show Pg.exec db ⟨sqlInsert, insertArgs cfg now data⟩ = _
  rw [Pg_exec_insert, ht, ← wellTyped_eq_fitsColumns cfg now data]
  simp only
  by_cases hty : wellTyped (insertArgs cfg now data) = true
  · have hany : rows.any
        (fun x => x.key == Row.key (insertColumns.zip (insertArgs cfg now data))) = true := by
      rw [List.any_eq_true]
      exact ⟨r, hr, by rw [insertStmt_key, hk]; simp⟩
    simp only [hty, Bool.not_true, Bool.false_eq_true, if_false, hu, Bool.true_and, hany,
      if_true]
  · simp only [hty, Bool.not_false, if_true, if_false]
    simp [hty]

theorem specRow_key (station : String) (now : Int) (data : LiveData) :
    Row.key (specRow station now data) = (some (.time now), some (.text station)) := rfl

/-- C8 (as amended): on a database reached after `MigrateDb` returned nil, once
a write of `UpdateInverterData` is stored, every later write with the same
timestamp and station number, whatever was sent to the database in between, is
refused: `UpdateInverterData` ends in `log.Fatal` and the database is left as
it was before the second write, still holding the specified row of the first
write and nothing of the second.  The refusal is the unique violation 23505
when the values the second write sends to the `integer` columns, the ten
snapshot values and the sum of `InverterToLoad` and `GridToLoad`, all fit 32
bits; otherwise it is the encoding refusal of the first argument that does not
fit. -/
theorem UpdateInverterData_duplicate_rejected {J : Type} (netA netB : Net J)
    (db0 : PgDb) (issued0 : List Stmt) (conn1 : Conn PgDb) (later between : List Stmt)
    (ldA ldA2 ldB ldB1 : LuxpowerDownload J PgDb) (logA logA2 logB : List LogLine)
    (dataB : LiveData) (now : Int)
    (hmig : MigrateDb Pg ⟨db0, issued0⟩ = (none, conn1))
    (hreach : ldA.Connection.db = execAll conn1.db later)
    (hfirst : ldA.UpdateInverterData netA Pg now logA = .returned none (ldA2, logA2))
    (hdb : ldB.Connection.db = execAll ldA2.Connection.db between)
    (hstation : ldB.Config.StationNumber = ldA.Config.StationNumber)
    (hgetB : ldB.GetLiveData netB false = ((dataB, none), ldB1)) :
    (∃ rows dataA more, ldA.Connection.db.table = some rows ∧
      ldA2.Connection.db.table =
        some (rows ++ [specRow ldA.Config.StationNumber now dataA]) ∧
      ldB.Connection.db.table =
        some (rows ++ [specRow ldA.Config.StationNumber now dataA] ++ more)) ∧
    (ldB.UpdateInverterData netB Pg now logB).fatalError =
      some (if fitsColumns dataB then .pg "23505"
        else encodeError (insertArgs ldB.Config now dataB)) ∧
    (fitsColumns dataB = false →
      ∃ (i : Nat) (n : Int), encodeError (insertArgs ldB.Config now dataB) = .encode i n ∧
        fits32 n = false) ∧
    (ldB.UpdateInverterData netB Pg now logB).state.1.Connection.db =
      ldB.Connection.db := by
  have hready : Ready ldA.Connection.db := by
    rw [hreach]
    exact execAll_ready later _ (MigrateDb_ready _ _ hmig)
  rcases hgetA : ldA.GetLiveData netA false with ⟨⟨dataA, _ | errA⟩, ldA1⟩
  swap
  · simp only [LuxpowerDownload.UpdateInverterData, hgetA] at hfirst
    cases hfirst
  rw [UpdateInverterData_of_get netA Pg now ldA ldA1 logA dataA hgetA] at hfirst
  cases hx : Storage.exec Pg ldA.Connection.db (insertStmt ldA.Config now dataA) with
  | error err => rw [hx] at hfirst; cases hfirst
  | ok db1 =>
    rw [hx] at hfirst
    simp only [Outcome.returned.injEq, Prod.mk.injEq, true_and] at hfirst
    have hdb1 : ldA2.Connection.db = db1 := by rw [← hfirst.1]
    rw [Pg_store_exec] at hx
    obtain ⟨⟨rows, hrows, hrows1⟩, hready1⟩ :=
      Pg_insert_stored ldA.Connection.db db1 ldA.Config now dataA hready hx
    rw [← hdb1] at hrows1 hready1
    obtain ⟨more, hmore⟩ := execAll_rows between _ _ hrows1
    rw [← hdb] at hmore
    have hreadyB : Ready ldB.Connection.db := by
      rw [hdb]; exact execAll_ready between _ hready1
    have hsecond := Pg_insert_duplicate ldB.Connection.db _
      (specRow ldA.Config.StationNumber now dataA) ldB.Config now dataB hreadyB.2 hmore
      (by simp) (by rw [specRow_key, hstation])
    refine ⟨⟨rows, dataA, more, hrows, hrows1, hmore⟩, ?_,
      encodeError_insertArgs ldB.Config now dataB, ?_⟩
    · rw [UpdateInverterData_of_get netB Pg now ldB ldB1 logB dataB hgetB, Pg_store_exec,
        hsecond]
      rfl
    · rw [UpdateInverterData_of_get netB Pg now ldB ldB1 logB dataB hgetB, Pg_store_exec,
        hsecond]
      rfl

theorem sample_first_write :
    (sampleDownloader [] migratedDb).UpdateInverterData (stubNet sampleBody) Pg 1700000000 [] =
      .returned none
        ({ Config := sampleConfig, Jar := ["JSESSIONID=0123"],
           Client := ⟨[sampleLoginRequest, sampleLiveRequest]⟩,
           Connection := ⟨oneRowDb, [insertStmt sampleConfig 1700000000 sampleData]⟩ },
         [.text "Fetching data from LuxPower"]) := by
  rw [UpdateInverterData_of_get _ _ _ _ _ _ _ (sample_fetch migratedDb)]
  have h : Storage.exec Pg (sampleDownloader [] migratedDb).Connection.db
      (insertStmt (sampleDownloader [] migratedDb).Config 1700000000 sampleData)
      = .ok oneRowDb := by
    rw [Pg_store_exec]
    show Pg.exec migratedDb ⟨sqlInsert, insertArgs sampleConfig 1700000000 sampleData⟩ = _
    rw [Pg_exec_insert]
    decide
  rw [h]
  rfl

theorem sample_between :
    twoRowDb = execAll oneRowDb [insertStmt sampleConfig 1700000001 sampleData] := by
  have h : Pg.exec oneRowDb (insertStmt sampleConfig 1700000001 sampleData) = .ok twoRowDb := by
    show Pg.exec oneRowDb ⟨sqlInsert, insertArgs sampleConfig 1700000001 sampleData⟩ = _
    rw [Pg_exec_insert]
    decide
  simp only [execAll, List.foldl_cons, List.foldl_nil, h]

theorem body_fetch (body : Body) (data : LiveData) (db : PgDb)
    (h : Unmarshal body LiveData.zero = (data, none)) :
    (sampleDownloader [] db).GetLiveData (stubNet body) false =
      ((data, none),
        { Config := sampleConfig, Jar := ["JSESSIONID=0123"],
          Client := ⟨[sampleLoginRequest, sampleLiveRequest]⟩, Connection := ⟨db, []⟩ }) := by
  rw [GetLiveData_of_fetches _ _ _ _ (stubNet_fetches body db), h]

theorem refused_write (body : Body) (data : LiveData) (db : PgDb) (err : Error)
    (h : Unmarshal body LiveData.zero = (data, none))
    (hx : Pg.exec db ⟨sqlInsert, insertArgs sampleConfig 1700000000 data⟩ = .error err) :
    ((sampleDownloader [] db).UpdateInverterData (stubNet body) Pg 1700000000 []).fatalError
      = some err ∧
    ((sampleDownloader [] db).UpdateInverterData (stubNet body) Pg
      1700000000 []).state.1.Connection.db = db := by
  rw [UpdateInverterData_of_get _ _ _ _ _ _ _ (body_fetch body data db h)]
  have h2 : Storage.exec Pg (sampleDownloader [] db).Connection.db
      (insertStmt (sampleDownloader [] db).Config 1700000000 data) = .error err := by
    rw [Pg_store_exec]; exact hx
  rw [h2]
  exact ⟨rfl, rfl⟩

set_option maxRecDepth 8192 in
/-- C8 at concrete inputs: after the migration of the empty database, a first
write of the example snapshot at time 1700000000 and another write one second
later, a write of the same snapshot at time 1700000000 for the same station
ends in `log.Fatal` with the unique violation, and the database still holds
the two rows. -/
theorem UpdateInverterData_duplicate_rejected_witness :
    ((sampleDownloader [] twoRowDb).UpdateInverterData (stubNet sampleBody) Pg
        1700000000 []).fatalError = some (.pg "23505") ∧
    ((sampleDownloader [] twoRowDb).UpdateInverterData (stubNet sampleBody) Pg
        1700000000 []).state.1.Connection.db = twoRowDb :=
  have h := UpdateInverterData_duplicate_rejected (stubNet sampleBody) (stubNet sampleBody)
    emptyDb [] ⟨migratedDb, [] ++ migrationWithConversion⟩ []
    [insertStmt sampleConfig 1700000001 sampleData]
    (sampleDownloader [] migratedDb) _ (sampleDownloader [] twoRowDb) _ [] _ []
    sampleData 1700000000 (MigrateDb_emptyDb []) rfl sample_first_write sample_between rfl
    (sample_fetch twoRowDb)
  ⟨h.2.1, h.2.2.2⟩

/-- C8 as stated fails when the second write holds a value that does not fit
an `integer` column.  The first write of the example snapshot is stored.  A
second write, same time and station, with `ppv = 3000000000` is refused for
that value (argument 6), not with a unique violation.  So is a second write
whose ten values all fit 32 bits, with `pinv = 2147483647` and `pToUser = 1`:
the derived `load` (argument 12) is 2147483648.  The database is unchanged in
both cases. -/
theorem UpdateInverterData_duplicate_counterexample :
    (MigrateDb Pg ⟨emptyDb, []⟩).1 = none ∧
    (MigrateDb Pg ⟨emptyDb, []⟩).2.db = migratedDb ∧
    ((sampleDownloader [] migratedDb).UpdateInverterData (stubNet sampleBody) Pg
        1700000000 []).value = some none ∧
    ((sampleDownloader [] migratedDb).UpdateInverterData (stubNet sampleBody) Pg
        1700000000 []).state.1.Connection.db = oneRowDb ∧
    (((sampleDownloader [] oneRowDb).UpdateInverterData (stubNet largeBody) Pg
        1700000000 []).fatalError = some (.encode 6 3000000000) ∧
      ((sampleDownloader [] oneRowDb).UpdateInverterData (stubNet largeBody) Pg
        1700000000 []).fatalError ≠ some (.pg "23505") ∧
      ((sampleDownloader [] oneRowDb).UpdateInverterData (stubNet largeBody) Pg
        1700000000 []).state.1.Connection.db = oneRowDb) ∧
    (Field.all.all (fun f => fits32 (f.get largeLoadData)) = true ∧
      ((sampleDownloader [] oneRowDb).UpdateInverterData (stubNet largeLoadBody) Pg
        1700000000 []).fatalError = some (.encode 12 2147483648) ∧
      ((sampleDownloader [] oneRowDb).UpdateInverterData (stubNet largeLoadBody) Pg
        1700000000 []).fatalError ≠ some (.pg "23505") ∧
      ((sampleDownloader [] oneRowDb).UpdateInverterData (stubNet largeLoadBody) Pg
        1700000000 []).state.1.Connection.db = oneRowDb) := by
  have h1 := refused_write largeBody largeData oneRowDb (.encode 6 3000000000) (by decide)
    (by rw [Pg_exec_insert]; decide)
  have h2 := refused_write largeLoadBody largeLoadData oneRowDb (.encode 12 2147483648)
    (by decide) (by rw [Pg_exec_insert]; decide)
  rw [MigrateDb_emptyDb, sample_first_write, h1.1, h1.2, h2.1, h2.2]
  refine ⟨rfl, rfl, rfl, rfl, ⟨rfl, by decide, rfl⟩, ⟨by decide, rfl, by decide, rfl⟩⟩

/-! ## Display rendering -/

theorem toDigitsCore_append (fuel : Nat) : ∀ (n : Nat) (ds : List Char),
    Nat.toDigitsCore 10 fuel n ds = Nat.toDigitsCore 10 fuel n [] ++ ds := by
  induction fuel with
  | zero => intro n ds; simp [Nat.toDigitsCore]
  | succ k ih =>
    intro n ds
    simp only [Nat.toDigitsCore]
    split_ifs with h
    · simp
    · rw [ih (n / 10) (Nat.digitChar (n % 10) :: ds), ih (n / 10) [Nat.digitChar (n % 10)]]
      simp

theorem digitChar_value (k : Nat) (h : k < 10) :
    (Nat.digitChar k).toNat - 48 = k ∧ IsDigit (Nat.digitChar k) := by
  unfold IsDigit
  interval_cases k <;> decide

theorem decimalValue_append (xs : List Char) (c : Char) :
    decimalValue (xs ++ [c]) = 10 * decimalValue xs + (c.toNat - 48) := by
  simp [decimalValue, List.foldl_append]

theorem decimalValue_toDigitsCore (fuel : Nat) : ∀ n : Nat, n < fuel →
    decimalValue (Nat.toDigitsCore 10 fuel n []) = n ∧
    ∀ c ∈ Nat.toDigitsCore 10 fuel n [], IsDigit c := by
  induction fuel with
  | zero => intro n h; omega
  | succ k ih =>
    intro n hn
    have hd := digitChar_value (n % 10) (Nat.mod_lt _ (by norm_num))
    simp only [Nat.toDigitsCore]
    split_ifs with h
    · refine ⟨?_, ?_⟩
      · simp only [decimalValue, List.foldl_cons, List.foldl_nil, hd.1]
        omega
      · intro c hc
        rw [List.mem_singleton] at hc
        rw [hc]; exact hd.2
    · rw [toDigitsCore_append]
      have hlt : n / 10 < k := by omega
      obtain ⟨h1, h2⟩ := ih (n / 10) hlt
      refine ⟨?_, ?_⟩
      · rw [decimalValue_append, h1, hd.1]
        omega
      · intro c hc
        rcases List.mem_append.mp hc with hc | hc
        · exact h2 c hc
        · rw [List.mem_singleton] at hc
          rw [hc]; exact hd.2

theorem toDigits_spec (n : Nat) :
    decimalValue (Nat.toDigits 10 n) = n ∧ ∀ c ∈ Nat.toDigits 10 n, IsDigit c :=
  decimalValue_toDigitsCore (n + 1) n (Nat.lt_succ_self n)

/-- A character that can occur in the rendering of an integer. -/
theorem formatInt_chars (v : Int) :
    ∀ c ∈ (formatInt v).data, c = '-' ∨ IsDigit c := by
  intro c hc
  unfold formatInt at hc
  split_ifs at hc
  · simp only [String.data_append, List.mem_append] at hc
    rcases hc with hc | hc
    · left
      rw [List.mem_singleton] at hc
      exact hc
    · right; exact (toDigits_spec _).2 c hc
  · right; exact (toDigits_spec _).2 c hc

theorem formatInt_injective (v w : Int) (h : (formatInt v).data = (formatInt w).data) :
    v = w := by
  have hminus : ¬ IsDigit '-' := by unfold IsDigit; decide
  have hm : ("-" : String).data = ['-'] := rfl
  have key : ∀ a b : Nat, Nat.toDigits 10 a = Nat.toDigits 10 b → a = b := by
    intro a b hab
    rw [← (toDigits_spec a).1, ← (toDigits_spec b).1, hab]
  have repr_data : ∀ n : Nat, (Nat.repr n).data = Nat.toDigits 10 n := fun _ => rfl
  unfold formatInt at h
  split_ifs at h with hv hw hw
  · simp only [String.data_append, hm, repr_data, List.singleton_append, List.cons.injEq,
      true_and] at h
    have := key _ _ h
    omega
  · exfalso
    simp only [String.data_append, hm, repr_data, List.singleton_append] at h
    apply hminus
    apply (toDigits_spec w.natAbs).2
    rw [← h]; exact List.mem_cons_self _ _
  · exfalso
    simp only [String.data_append, hm, repr_data, List.singleton_append] at h
    apply hminus
    apply (toDigits_spec v.natAbs).2
    rw [h]; exact List.mem_cons_self _ _
  · simp only [repr_data] at h
    have := key _ _ h
    omega

/-- Two texts that each end a run of integer characters with a character that
is none: the runs are equal and so are the rests. -/
theorem split_at_terminator (c c2 : Char) (hc : ¬ (c = '-' ∨ IsDigit c))
    (hc2 : ¬ (c2 = '-' ∨ IsDigit c2)) :
    ∀ (xs ys r r2 : List Char), (∀ x ∈ xs, x = '-' ∨ IsDigit x) →
      (∀ y ∈ ys, y = '-' ∨ IsDigit y) → xs ++ c :: r = ys ++ c2 :: r2 →
      xs = ys ∧ c :: r = c2 :: r2 := by
  intro xs
  induction xs with
  | nil =>
    intro ys r r2 _ hys h
    cases ys with
    | nil => exact ⟨rfl, h⟩
    | cons y ys =>
      exfalso
      simp only [List.nil_append, List.cons_append, List.cons.injEq] at h
      exact hc (h.1 ▸ hys y (List.mem_cons_self _ _))
  | cons x xs ih =>
    intro ys r r2 hxs hys h
    cases ys with
    | nil =>
      exfalso
      simp only [List.nil_append, List.cons_append, List.cons.injEq] at h
      exact hc2 (h.1 ▸ hxs x (List.mem_cons_self _ _))
    | cons y ys =>
      simp only [List.cons_append, List.cons.injEq] at h
      obtain ⟨h1, h2⟩ := ih ys r r2 (fun a ha => hxs a (List.mem_cons_of_mem _ ha))
        (fun a ha => hys a (List.mem_cons_of_mem _ ha)) h.2
      exact ⟨by rw [h.1, h1], h2⟩

theorem kvpair_data (ldd : LiveDataDisplay) (f : Field) :
    (kvpair ldd f).data = ("\"" ++ f.name ++ "\":").data ++ (formatInt (f.get ldd)).data := by
  simp only [kvpair, String.data_append]

theorem renderPairs_injective (a b : LiveDataDisplay) :
    ∀ fs : List Field, renderPairs a fs = renderPairs b fs → ∀ f ∈ fs, f.get a = f.get b := by
  have hbrace : ¬ ('\x7d' = '-' ∨ IsDigit '\x7d') := by unfold IsDigit; decide
  have hcomma : ¬ (',' = '-' ∨ IsDigit ',') := by unfold IsDigit; decide
  intro fs
  induction fs with
  | nil => intro _ f hf; cases hf
  | cons g rest ih =>
    intro h f hf
    cases rest with
    | nil =>
      simp only [renderPairs, kvpair_data, List.append_assoc] at h
      have h2 := List.append_cancel_left h
      obtain ⟨h3, -⟩ := split_at_terminator _ _ hbrace hbrace _ _ _ _
        (formatInt_chars _) (formatInt_chars _) h2
      rw [List.mem_singleton] at hf
      rw [hf]; exact formatInt_injective _ _ h3
    | cons g2 rest2 =>
      simp only [renderPairs, kvpair_data, List.append_assoc] at h
      have h2 := List.append_cancel_left h
      obtain ⟨h3, h4⟩ := split_at_terminator _ _ hcomma hcomma _ _ _ _
        (formatInt_chars _) (formatInt_chars _) h2
      rcases List.mem_cons.mp hf with hf | hf
      · rw [hf]; exact formatInt_injective _ _ h3
      · exact ih (List.cons.inj h4).2 f hf

theorem MarshalJSON_data (ldd : LiveDataDisplay) :
    (LiveDataDisplay.MarshalJSON ldd).1.data = '\x7b' :: renderPairs ldd Field.all := by
  simp only [LiveDataDisplay.MarshalJSON, kvpairs, Field.all, List.foldl_cons, List.foldl_nil,
    List.nil_append, List.cons_append, String.intercalate, String.intercalate.go,
    String.data_append, renderPairs, List.append_assoc]


set_option maxRecDepth 100000 in
/-- C10: `MarshalJSON` returns a nil error and the text made of an opening
brace, the ten pairs `"<GoFieldName>":<decimal integer>` in declaration order
joined by commas, and a closing brace; the keys are the Go field names, not
the API keys; every integer is rendered as an optional minus sign followed by
the decimal digits of its absolute value; there are exactly ten pairs; and two
values with the same output are equal. -/
theorem MarshalJSON_spec (ldd : LiveDataDisplay) :
    (LiveDataDisplay.MarshalJSON ldd).2 = none ∧
    (LiveDataDisplay.MarshalJSON ldd).1 =
      "\x7b" ++ String.intercalate ","
        ["\"PhotoVoltaic1Watts\":" ++ formatInt ldd.PhotoVoltaic1Watts,
         "\"PhotoVoltaic2Watts\":" ++ formatInt ldd.PhotoVoltaic2Watts,
         "\"PhotoVoltaic3Watts\":" ++ formatInt ldd.PhotoVoltaic3Watts,
         "\"PhotoVoltaicTotalWatts\":" ++ formatInt ldd.PhotoVoltaicTotalWatts,
         "\"InverterToBattery\":" ++ formatInt ldd.InverterToBattery,
         "\"BatteryToInverter\":" ++ formatInt ldd.BatteryToInverter,
         "\"BatteryChargePercent\":" ++ formatInt ldd.BatteryChargePercent,
         "\"InverterToLoad\":" ++ formatInt ldd.InverterToLoad,
         "\"GridToLoad\":" ++ formatInt ldd.GridToLoad,
         "\"InverterToGrid\":" ++ formatInt ldd.InverterToGrid] ++ "\x7d" ∧
    (∀ v : Int, ∃ digits : List Char,
      formatInt v = (if v < 0 then "-" else "") ++ String.mk digits ∧
      (∀ c ∈ digits, IsDigit c) ∧ decimalValue digits = v.natAbs) ∧
    (kvpairs ldd).length = 10 ∧
    (∀ f : Field, f.name ≠ f.tag) ∧
    (∀ other : LiveDataDisplay,
      (LiveDataDisplay.MarshalJSON other).1 = (LiveDataDisplay.MarshalJSON ldd).1 →
      other = ldd) := by
  refine ⟨rfl, ?_, ?_, rfl, ?_, ?_⟩
  · simp only [LiveDataDisplay.MarshalJSON, kvpairs, Field.all, List.foldl_cons,
      List.foldl_nil, List.nil_append, List.cons_append, kvpair, Field.name, Field.get]
    apply String.ext
    simp only [String.data_append, String.intercalate, String.intercalate.go,
      List.append_assoc]
    rfl
  · intro v
    refine ⟨Nat.toDigits 10 v.natAbs, ?_, (toDigits_spec _).2, (toDigits_spec _).1⟩
    unfold formatInt
    split_ifs <;> rfl
  · intro f; cases f <;> decide
  · intro other h
    have hd := congrArg String.data h
    rw [MarshalJSON_data, MarshalJSON_data] at hd
    exact LiveData.ext_get
      (fun f => renderPairs_injective other ldd Field.all (List.cons.inj hd).2 f
        (by cases f <;> decide))

set_option maxRecDepth 100000 in
/-- C10 at the spec's example snapshot: the rendered text. -/
theorem MarshalJSON_spec_witness :
    (LiveDataDisplay.MarshalJSON ⟨1, 2, 3, 6, 10, 0, 80, 5, 1, 0⟩).1 =
      "\x7b\"PhotoVoltaic1Watts\":1,\"PhotoVoltaic2Watts\":2,\"PhotoVoltaic3Watts\":3," ++
      "\"PhotoVoltaicTotalWatts\":6,\"InverterToBattery\":10,\"BatteryToInverter\":0," ++
      "\"BatteryChargePercent\":80,\"InverterToLoad\":5,\"GridToLoad\":1," ++
      "\"InverterToGrid\":0\x7d" :=
  (MarshalJSON_spec ⟨1, 2, 3, 6, 10, 0, 80, 5, 1, 0⟩).2.1.trans (by decide)

/-! ## The process -/

set_option maxRecDepth 100000 in
/-- C6 fails on the code.  With an API server that refuses the connection,
`GetLiveData` fails, `UpdateInverterData` returns the error, and `main` drops
it: the run ends with status 0 and the error is not logged.  With a database
server on which `MigrateDb` fails at its first statement, `main` drops that
error too: the login and runtime-data requests and the INSERT are still sent,
and the only error logged is the INSERT's (42P01, no such table). -/
theorem main_drops_errors :
    ((sampleDownloader [] migratedDb).GetLiveData downNet false).1.2 =
      some (.http "dial tcp: connection refused") ∧
    main fetchFailsHost =
      ⟨.ok, [.text "Fetching data from LuxPower"], migrationWithConversion,
        [sampleLoginRequest]⟩ ∧
    (MigrateDb Pg ⟨noExtensionDb, []⟩).1 = some (.pg "0A000") ∧
    main migrateFailsHost =
      ⟨.fatal, [.text "Fetching data from LuxPower", .error (.pg "42P01")],
        [⟨sqlCreateExtension, []⟩, insertStmt sampleConfig 1700000000 sampleData],
        [sampleLoginRequest, sampleLiveRequest]⟩ := by
  decide

/-! ## Further properties -/

theorem decodeMember_inRange (st : LiveData × Option Error) (m : String × JSON)
    (h : ∀ f : Field, InRange (f.get st.1)) :
    ∀ f : Field, InRange (f.get (decodeMember st m).1) := by
  intro f
  unfold decodeMember
  cases hk : findField m.1 with
  | none => exact h f
  | some g =>
    simp only
    rw [Field.get_set]
    by_cases hfg : f = g
    · simp only [hfg, if_true]
      unfold storeInt
      split
      · exact h g
      · split_ifs with hr
        · exact hr
        · exact h g
      · exact h g
    · simp only [hfg, if_false]
      exact h f

theorem Unmarshal_inRange (body : Body) (data : LiveData)
    (h : ∀ f : Field, InRange (f.get data)) :
    ∀ f : Field, InRange (f.get (Unmarshal body data).1) := by
  have hfold : ∀ (members : List (String × JSON)) (st : LiveData × Option Error),
      (∀ f : Field, InRange (f.get st.1)) →
      ∀ f : Field, InRange (f.get (members.foldl decodeMember st).1) := by
    intro members
    induction members with
    | nil => intro st hst; exact hst
    | cons m rest ih =>
      intro st hst
      rw [List.foldl_cons]
      exact ih _ (decodeMember_inRange st m hst)
  unfold Unmarshal
  split
  · exact h
  · exact hfold _ _ h
  · exact h
  · exact h

theorem zero_inRange (f : Field) : InRange (f.get LiveData.zero) := by
  cases f <;> decide

/-- Whatever path `GetLiveData` takes, a returned error comes with the zero
snapshot, and every field of the returned snapshot is a Go `int`. -/
theorem GetLiveData_result {J D : Type} (net : Net J) (ld : LuxpowerDownload J D)
    (test_mode : Bool) :
    ((ld.GetLiveData net test_mode).1.2 = none ∨
      (ld.GetLiveData net test_mode).1.1 = ⟨0, 0, 0, 0, 0, 0, 0, 0, 0, 0⟩) ∧
    ∀ f : Field, InRange (f.get (ld.GetLiveData net test_mode).1.1) := by
  have hz : (⟨0, 0, 0, 0, 0, 0, 0, 0, 0, 0⟩ : LiveData) = LiveData.zero := rfl
  rw [hz]
  cases test_mode with
  | true => exact ⟨Or.inl rfl, zero_inRange⟩
  | false =>
    simp only [LuxpowerDownload.GetLiveData, Bool.false_eq_true, if_false]
    split
    · exact ⟨Or.inr rfl, zero_inRange⟩
    · split
      · exact ⟨Or.inr rfl, zero_inRange⟩
      · split
        · exact ⟨Or.inr rfl, zero_inRange⟩
        · split
          · exact ⟨Or.inr rfl, zero_inRange⟩
          · rename_i body _
            split
            · exact ⟨Or.inr rfl, zero_inRange⟩
            · rename_i data hdec
              refine ⟨Or.inl rfl, fun f => ?_⟩
              have := Unmarshal_inRange body LiveData.zero zero_inRange f
              rw [hdec] at this
              exact this

/-- The two ways `UpdateInverterData` handles a failure: an error of
`GetLiveData` is returned to the caller with nothing sent to the database and
nothing but the progress line logged; an error of the INSERT ends the process
through `log.Fatal`, the error being the last line logged. -/
theorem UpdateInverterData_failures {J D : Type} (net : Net J) (store : Storage D)
    (now : Int) (ld : LuxpowerDownload J D) (log : List LogLine) :
    (∀ snapshot err ld1, ld.GetLiveData net false = ((snapshot, some err), ld1) →
      ld.UpdateInverterData net store now log =
        .returned (some err) (ld1, log ++ [.text "Fetching data from LuxPower"]) ∧
      ld1.Connection.issued = ld.Connection.issued) ∧
    (∀ data err ld1, ld.GetLiveData net false = ((data, none), ld1) →
      store.exec ld.Connection.db (insertStmt ld.Config now data) = .error err →
      (ld.UpdateInverterData net store now log).fatalError = some err ∧
      (ld.UpdateInverterData net store now log).state.2 =
        log ++ [.text "Fetching data from LuxPower"] ++ [.error err]) := by
  refine ⟨fun snapshot err ld1 hget => ?_, fun data err ld1 hget hexec => ?_⟩
  · have hframe := (GetLiveData_frame net ld false).2
    rw [hget] at hframe
    simp only at hframe
    exact ⟨by simp only [LuxpowerDownload.UpdateInverterData, hget], by rw [hframe]⟩
  · rw [UpdateInverterData_of_get net store now ld ld1 log data hget, hexec]
    exact ⟨rfl, rfl⟩

/-- The stages `main` checks: when `NewConfig`, `pgx.Connect` or `Conn.Ping`
fails, the run ends through `log.Fatal` with that error as its only log line,
before any statement or request is sent. -/
theorem main_fails_fast {J D : Type} (h : Host J D) :
    (∀ err, NewConfig h.net.urlParse h.env = .error err →
      main h = ⟨.fatal, [.error err], [], []⟩) ∧
    (∀ cfg err, NewConfig h.net.urlParse h.env = .ok cfg →
      h.connect cfg.DatabaseUrl = .error err →
      main h = ⟨.fatal, [.error err], [], []⟩) ∧
    (∀ cfg db err, NewConfig h.net.urlParse h.env = .ok cfg →
      h.connect cfg.DatabaseUrl = .ok db → h.ping db = some err →
      main h = ⟨.fatal, [.error err], [], []⟩) := by
  refine ⟨fun err h1 => ?_, fun cfg err h1 h2 => ?_, fun cfg db err h1 h2 h3 => ?_⟩
  · simp only [main, h1]
  · simp only [main, h1, h2]
  · simp only [main, h1, h2, h3]

set_option maxRecDepth 100000 in
/-- A run without `DATABASE_URL`: the configuration error is logged and the
process exits with status 1, nothing else having happened. -/
theorem main_fails_fast_witness :
    main noConfigHost = ⟨.fatal, [.error (.new "database url not set")], [], []⟩ :=
  (main_fails_fast noConfigHost).1 (.new "database url not set") (by decide)

end Luxpower
